import Mathlib

/-!
Verification of the subscription/payment reconciliation core of the
shaunacs/shauna-saunders repository.

The embedding translates the relevant Python code (`customers_db.py`,
`server.py`, `customers_blueprint.py`, `admin_blueprint.py`) into pure Lean
functions over an explicit database state.  Conventions:

* SQLite rows become structures; tables become lists kept in insertion order.
* Money amounts (REAL columns, Stripe minor-unit integers divided by 100)
  are modelled as rationals.
* Timestamps that the logic only stores and compares are modelled as `Nat`;
  columns such as `updated_at` / `paid_at` that no claim reads are omitted.
* Identifier strings carried in Stripe metadata (`customer_id`,
  `project_id`, `milestone_id`) are modelled as `Option Nat`: `none` is a
  missing key, `some n` a numeric string (the code immediately applies
  `int(...)` to them).
* A raised `sqlite3.IntegrityError` (the UNIQUE constraint on
  `payments.stripe_payment_intent_id`) is modelled by `create_payment`
  returning `none`; callers translate that into the control flow of the
  surrounding Python `try`/`except` (each `customers_db` call commits on its
  own connection, so earlier mutations survive a later exception).
* Outbound Stripe reads (`stripe.Subscription.retrieve`) are an oracle
  `String → Option StripeSubInfo`; `none` models a raised `StripeError`.
* Side effects with no ledger state (prints, e-mails, flashes, redirects)
  are dropped.
-/

namespace ShaunaSaunders

/-- A row of the `customers` table (the columns the reconciliation logic
reads: primary key and e-mail). -/
structure Customer where
  id : Nat
  email : String
deriving DecidableEq, Repr

/-- A row of the `projects` table, restricted to the columns the
reconciliation logic reads or writes.  `payment_method_type` is the column
added by `migrate_manual_payments.py` (nullable, default `'stripe'`). -/
structure Project where
  id : Nat
  customer_id : Nat
  status : String
  total_amount : Rat
  amount_paid : Rat
  is_subscription : Bool
  stripe_subscription_id : Option String
  subscription_status : String
  next_payment_date : Option Nat
  payment_method_type : Option String
  created_at : Nat
deriving DecidableEq, Repr

/-- A row of the `project_milestones` table. -/
structure Milestone where
  id : Nat
  project_id : Nat
  status : String
  is_payment_milestone : Bool
  payment_amount : Option Rat
  order_index : Nat
  created_at : Nat
deriving DecidableEq, Repr

/-- A row of the `payments` table.  `stripe_payment_intent_id` carries the
table's only UNIQUE constraint besides the primary key. -/
structure Payment where
  customer_id : Nat
  project_id : Option Nat
  milestone_id : Option Nat
  stripe_payment_intent_id : Option String
  stripe_checkout_session_id : Option String
  stripe_subscription_id : Option String
  amount : Rat
  payment_type : String
  status : String
  payment_method : Option String
deriving DecidableEq, Repr

/-- A row of the `stripe_payment_links` table (the columns
`handle_successful_payment` touches). -/
structure PaymentLink where
  stripe_session_id : String
  used : Bool
deriving DecidableEq, Repr

/-- The ledger store: the five tables the reconciliation core touches. -/
structure DB where
  customers : List Customer
  projects : List Project
  milestones : List Milestone
  payments : List Payment
  payment_links : List PaymentLink
deriving DecidableEq, Repr

/-! ## Ledger store primitives (`customers_db.py`) -/

/-- `customers_db.get_project_by_id`: `SELECT * FROM projects WHERE id = ?`. -/
def get_project_by_id (db : DB) (pid : Nat) : Option Project :=
  db.projects.find? (fun p => p.id == pid)

/-- `customers_db.get_customer_by_email` (the store lower-cases and strips
the e-mail; we treat the argument as already normalised). -/
def get_customer_by_email (db : DB) (email : String) : Option Customer :=
  db.customers.find? (fun c => c.email == email)

/-- Does inserting `p` violate the UNIQUE constraint on
`payments.stripe_payment_intent_id`?  SQLite lets any number of NULLs
coexist, so only a `some` value can conflict. -/
def intentConflict (db : DB) (p : Payment) : Bool :=
  match p.stripe_payment_intent_id with
  | none => false
  | some s => db.payments.any (fun q => q.stripe_payment_intent_id == some s)

/-- `customers_db.create_payment`: plain INSERT.  `none` models the raised
`sqlite3.IntegrityError` when the intent id is already present. -/
def create_payment (db : DB) (p : Payment) : Option DB :=
  if intentConflict db p then none
  else some { db with payments := db.payments ++ [p] }

/-- One keyword argument of `customers_db.update_project`, restricted to
the fields the reconciliation call sites pass. -/
inductive ProjKwarg
  | status (v : String)
  | stripe_subscription_id (v : Option String)
  | subscription_status (v : String)
  | next_payment_date (v : Option Nat)
  | payment_method_type (v : String)
deriving DecidableEq, Repr

/-- The field name a kwarg binds, as the Python string key. -/
def ProjKwarg.fieldName : ProjKwarg → String
  | .status _ => "status"
  | .stripe_subscription_id _ => "stripe_subscription_id"
  | .subscription_status _ => "subscription_status"
  | .next_payment_date _ => "next_payment_date"
  | .payment_method_type _ => "payment_method_type"

/-- The `allowed_fields` list of `customers_db.update_project`, verbatim.
Note that neither `payment_method_type` nor `amount_paid` is in it. -/
def update_project_allowed_fields : List String :=
  ["project_name", "project_type", "status", "total_amount",
   "payment_plan", "start_date", "end_date", "description", "notes",
   "is_subscription", "stripe_price_id", "stripe_subscription_id",
   "subscription_status", "next_payment_date"]

/-- Whether `update_project` accepts the kwarg. -/
def kwargAllowed (k : ProjKwarg) : Bool :=
  update_project_allowed_fields.contains k.fieldName

/-- Writing one accepted kwarg into a row (`field = ?` in the UPDATE). -/
def applyKwarg (p : Project) : ProjKwarg → Project
  | .status v => { p with status := v }
  | .stripe_subscription_id v => { p with stripe_subscription_id := v }
  | .subscription_status v => { p with subscription_status := v }
  | .next_payment_date v => { p with next_payment_date := v }
  | .payment_method_type v => { p with payment_method_type := some v }

/-- Writing a list of accepted kwargs into a row, left to right. -/
def applyKwargs (p : Project) (ks : List ProjKwarg) : Project :=
  ks.foldl applyKwarg p

/-- Map an update over the rows whose id matches (`WHERE id = ?`). -/
def updateRows (rows : List Project) (pid : Nat) (f : Project → Project) :
    List Project :=
  rows.map (fun p => if p.id = pid then f p else p)

/-- `customers_db.update_project`: kwargs outside `allowed_fields` are
silently dropped, and with no surviving kwarg no UPDATE runs at all
(`if updates:`). -/
def update_project (db : DB) (pid : Nat) (ks : List ProjKwarg) : DB :=
  if (ks.filter kwargAllowed).isEmpty then db
  else { db with projects := updateRows db.projects pid (fun p => applyKwargs p (ks.filter kwargAllowed)) }

/-- The row transform of `update_project_paid_amount`. -/
def bumpPaid (amount_to_add : Rat) (p : Project) : Project :=
  { p with amount_paid := p.amount_paid + amount_to_add }

/-- `customers_db.update_project_paid_amount`:
`SET amount_paid = amount_paid + ? WHERE id = ?`. -/
def update_project_paid_amount (db : DB) (pid : Nat) (amount_to_add : Rat) :
    DB :=
  { db with projects := updateRows db.projects pid (bumpPaid amount_to_add) }

/-- `customers_db.mark_milestone_complete`. -/
def mark_milestone_complete (db : DB) (mid : Nat) : DB :=
  { db with milestones := db.milestones.map (fun m => if m.id = mid then { m with status := "completed" } else m) }

/-- `ORDER BY order_index, created_at` comparison for milestones. -/
def milestoneLE (a b : Milestone) : Bool :=
  a.order_index < b.order_index ||
    (a.order_index == b.order_index && a.created_at ≤ b.created_at)

/-- Ordered insertion used to realise the SQL ORDER BY. -/
def insertMilestoneSorted (m : Milestone) : List Milestone → List Milestone
  | [] => [m]
  | x :: xs =>
      if milestoneLE m x then m :: x :: xs else x :: insertMilestoneSorted m xs

/-- Insertion sort realising `ORDER BY order_index, created_at`. -/
def sortMilestones : List Milestone → List Milestone
  | [] => []
  | x :: xs => insertMilestoneSorted x (sortMilestones xs)

/-- `customers_db.get_milestones_by_project`. -/
def get_milestones_by_project (db : DB) (pid : Nat) : List Milestone :=
  sortMilestones (db.milestones.filter (fun m => m.project_id == pid))

/-- `customers_db.get_payment_link_by_session_id`. -/
def get_payment_link_by_session_id (db : DB) (sid : String) :
    Option PaymentLink :=
  db.payment_links.find? (fun l => l.stripe_session_id == sid)

/-- `customers_db.mark_payment_link_used`. -/
def mark_payment_link_used (db : DB) (sid : String) : DB :=
  { db with payment_links := db.payment_links.map (fun l => if l.stripe_session_id = sid then { l with used := true } else l) }

/-- `customers_db.update_payment_status` (keyed on the intent id; the
`paid_at` column is not modelled). -/
def update_payment_status (db : DB) (intent_id : String) (status : String) :
    DB :=
  { db with payments := db.payments.map (fun q => if q.stripe_payment_intent_id = some intent_id then { q with status := status } else q) }

/-- `customers_db.get_active_subscription_projects` returns
`(id, stripe_subscription_id, next_payment_date)` triples. -/
structure ActiveSubRow where
  id : Nat
  stripe_subscription_id : Option String
  next_payment_date : Option Nat
deriving DecidableEq, Repr

/-- `customers_db.get_active_subscription_projects`:
`WHERE is_subscription = 1 AND subscription_status = 'active' AND
stripe_subscription_id IS NOT NULL`. -/
def get_active_subscription_projects (db : DB) : List ActiveSubRow :=
  (db.projects.filter (fun p =>
      p.is_subscription && p.subscription_status == "active" &&
        !(p.stripe_subscription_id == none))).map
    (fun p => ⟨p.id, p.stripe_subscription_id, p.next_payment_date⟩)

/-! ## Stripe-facing event payloads -/

/-- Checkout-session metadata attached at checkout-creation time. -/
structure Meta where
  customer_id : Option Nat
  project_id : Option Nat
  milestone_id : Option Nat
deriving DecidableEq, Repr

/-- The fields of a `checkout.session.completed` payload that
`handle_successful_payment` reads.  `amount_total` is in minor units. -/
structure CheckoutSession where
  id : String
  mode : String
  metadata : Meta
  amount_total : Rat
  payment_intent : Option String
  subscription : Option String
deriving DecidableEq, Repr

/-- The fields of a `customer.subscription.*` payload the handlers read.
`unit_amount` is `items.data[0].price.unit_amount` (minor units); `none`
models the key being absent, which raises a `KeyError` where the code
indexes into it. -/
structure SubEvent where
  id : String
  status : String
  cancel_at_period_end : Bool
  customer_email : Option String
  metadata_project_id : Option Nat
  items_current_period_end : Option Nat
  latest_invoice : Option String
  unit_amount : Option Rat
deriving DecidableEq, Repr

/-- The fields of an `invoice.payment_succeeded` / `_failed` payload the
handlers read (amounts in minor units). -/
structure Invoice where
  subscription : Option String
  amount_paid : Rat
  amount_due : Rat
deriving DecidableEq, Repr

/-- What `stripe.Subscription.retrieve` exposes to this code:
`items.data[0].current_period_end` when present. -/
structure StripeSubInfo where
  items_current_period_end : Option Nat
deriving DecidableEq, Repr

/-- The outbound Stripe read, as an environment oracle.  `none` models a
raised Stripe/network error. -/
abbrev StripeOracle := String → Option StripeSubInfo

/-! ## Reconciliation handlers (`server.py`) -/

/-- The payment row `handle_successful_payment` inserts for a one-time
checkout. -/
def checkoutPaymentRow (cs : CheckoutSession) (cid pid : Nat) : Payment :=
  { customer_id := cid
    project_id := some pid
    milestone_id := cs.metadata.milestone_id
    stripe_payment_intent_id := cs.payment_intent
    stripe_checkout_session_id := some cs.id
    stripe_subscription_id := none
    amount := cs.amount_total / 100
    payment_type := "one_time"
    status := "succeeded"
    payment_method := some "stripe_card" }

/-- The milestone auto-completion scan: first unpaid payment milestone of
the project whose amount matches within 0.01 (Python truthiness makes a
zero `payment_amount` skip the row). -/
def findMatchingMilestone (db : DB) (pid : Nat) (amount : Rat) :
    Option Milestone :=
  (get_milestones_by_project db pid).find? (fun m =>
    m.is_payment_milestone && !(m.status == "completed") &&
      (match m.payment_amount with
       | none => false
       | some a => !(a == 0) && |a - amount| < 1 / 100))

/-- `server.handle_successful_payment`.  The body sits in one `try`; the
only raising step is the payment INSERT, whose `IntegrityError` aborts the
remaining steps but keeps the (absent) earlier ones. -/
def handle_successful_payment (db : DB) (cs : CheckoutSession) : DB :=
  match cs.metadata.customer_id, cs.metadata.project_id with
  | some cid, some pid =>
    if cs.mode = "subscription" then
      match cs.subscription with
      | some sid =>
          update_project db pid
            [.stripe_subscription_id (some sid), .subscription_status "active"]
      | none => db
    else
      let amount := cs.amount_total / 100
      match create_payment db (checkoutPaymentRow cs cid pid) with
      | none => db
      | some db1 =>
        let db2 := update_project_paid_amount db1 pid amount
        let db3 :=
          match cs.metadata.milestone_id with
          | some mid => mark_milestone_complete db2 mid
          | none =>
            match findMatchingMilestone db2 pid amount with
            | some m => mark_milestone_complete db2 m.id
            | none => db2
        match get_payment_link_by_session_id db3 cs.id with
        | some _ => mark_payment_link_used db3 cs.id
        | none => db3
  | _, _ => db

/-- The fallback query of `handle_subscription_created`:
`SELECT id FROM projects WHERE customer_id = ? AND is_subscription = 1 AND
stripe_subscription_id IS NULL ORDER BY created_at DESC LIMIT 1`. -/
def unlinkedSubscriptionCandidates (db : DB) (cid : Nat) : List Project :=
  db.projects.filter (fun p =>
    p.customer_id == cid && p.is_subscription &&
      p.stripe_subscription_id == none)

/-- Picks the candidate with the greatest `created_at` (the DESC LIMIT 1). -/
def latestUnlinkedSubscriptionProject (db : DB) (cid : Nat) : Option Project :=
  (unlinkedSubscriptionCandidates db cid).foldl
    (fun best p =>
      match best with
      | none => some p
      | some b => if b.created_at < p.created_at then some p else some b)
    none

/-- The opening payment row `handle_subscription_created` inserts. -/
def subscriptionOpeningPaymentRow (cid pid : Nat) (sid : String)
    (amount : Rat) : Payment :=
  { customer_id := cid
    project_id := some pid
    milestone_id := none
    stripe_payment_intent_id := none
    stripe_checkout_session_id := none
    stripe_subscription_id := some sid
    amount := amount
    payment_type := "subscription"
    status := "succeeded"
    payment_method := none }

/-- The project-id resolution of `handle_subscription_created`: embedded
metadata first, then the fallback to the most recent unlinked
subscription project of the customer found by billing e-mail. -/
def subscription_created_project_id (db : DB) (s : SubEvent) : Option Nat :=
  match s.metadata_project_id with
  | some pid => some pid
  | none =>
    match s.customer_email with
    | none => none
    | some e =>
      match get_customer_by_email db e with
      | none => none
      | some c => (latestUnlinkedSubscriptionProject db c.id).map (·.id)

/-- The straight-line tail of `handle_subscription_created` once a project
id is resolved: link the project and activate it, then record the opening
payment when the event carries a latest invoice.  Reading a missing
`price.unit_amount` raises inside the `try`, stopping after the project
update. -/
def handle_subscription_created_link (db : DB) (s : SubEvent) (pid : Nat) :
    DB :=
  let db1 := update_project db pid
    [.stripe_subscription_id (some s.id), .subscription_status "active",
     .next_payment_date s.items_current_period_end]
  match s.latest_invoice with
  | none => db1
  | some _ =>
    match s.unit_amount with
    | none => db1
    | some ua =>
      match s.customer_email with
      | none => db1
      | some e =>
        match get_customer_by_email db1 e with
        | none => db1
        | some c =>
          match create_payment db1
              (subscriptionOpeningPaymentRow c.id pid s.id (ua / 100)) with
          | none => db1
          | some db2 => db2

/-- `server.handle_subscription_created`.  When metadata carries no
project id the handler falls back to the most recent unlinked
subscription project of the customer found by billing e-mail; with no
resolvable project the event is dropped. -/
def handle_subscription_created (db : DB) (s : SubEvent) : DB :=
  match subscription_created_project_id db s with
  | none => db
  | some pid => handle_subscription_created_link db s pid

/-- `SELECT ... FROM projects WHERE stripe_subscription_id = ?`. -/
def findProjectBySubscriptionId (db : DB) (sid : String) : Option Project :=
  db.projects.find? (fun p => p.stripe_subscription_id == some sid)

/-- `server.handle_subscription_updated`: maps the Stripe status onto the
local `subscription_status` and refreshes the next payment date.  In the
`canceled` branch the update dict ends with `next_payment_date = None`. -/
def handle_subscription_updated (db : DB) (s : SubEvent) : DB :=
  match findProjectBySubscriptionId db s.id with
  | none => db
  | some p =>
    let npd := s.items_current_period_end
    let ks : List ProjKwarg :=
      if s.status = "active" then
        if s.cancel_at_period_end then
          [.next_payment_date npd, .subscription_status "cancel_pending"]
        else
          [.next_payment_date npd, .subscription_status "active"]
      else if s.status = "canceled" then
        [.next_payment_date none, .subscription_status "cancelled",
         .status "cancelled"]
      else if s.status = "past_due" then
        [.next_payment_date npd, .subscription_status "past_due"]
      else
        [.next_payment_date npd]
    update_project db p.id ks

/-- `server.handle_subscription_cancelled` (the e-mail notification is an
external side effect and is dropped). -/
def handle_subscription_cancelled (db : DB) (s : SubEvent) : DB :=
  match findProjectBySubscriptionId db s.id with
  | none => db
  | some p =>
      update_project db p.id
        [.subscription_status "cancelled", .status "cancelled",
         .next_payment_date none]

/-- The payment row `handle_subscription_payment_succeeded` inserts. -/
def invoicePaymentRow (cid pid : Nat) (sid : String) (amount : Rat)
    (status : String) : Payment :=
  { customer_id := cid
    project_id := some pid
    milestone_id := none
    stripe_payment_intent_id := none
    stripe_checkout_session_id := none
    stripe_subscription_id := some sid
    amount := amount
    payment_type := "subscription"
    status := status
    payment_method := none }

/-- `server.handle_subscription_payment_succeeded`: records the succeeded
payment, then refreshes the next payment date from Stripe (resetting
`subscription_status` to `active`); the Stripe read failing is caught.
Note: it never touches `amount_paid`.  A NULL invoice subscription matches
no project (`= NULL` is never true in SQL). -/
def handle_subscription_payment_succeeded (oracle : StripeOracle) (db : DB)
    (invoice : Invoice) : DB :=
  match invoice.subscription with
  | none => db
  | some sid =>
    let amount := invoice.amount_paid / 100
    match findProjectBySubscriptionId db sid with
    | none => db
    | some p =>
      match create_payment db
          (invoicePaymentRow p.customer_id p.id sid amount "succeeded") with
      | none => db
      | some db1 =>
        match oracle sid with
        | none => db1
        | some info =>
          match info.items_current_period_end with
          | none => db1
          | some t =>
              update_project db1 p.id
                [.next_payment_date (some t), .subscription_status "active"]

/-- `server.handle_subscription_payment_failed`: records the failed
payment and marks the subscription `past_due`. -/
def handle_subscription_payment_failed (db : DB) (invoice : Invoice) : DB :=
  match invoice.subscription with
  | none => db
  | some sid =>
    let amount := invoice.amount_due / 100
    match findProjectBySubscriptionId db sid with
    | none => db
    | some p =>
      match create_payment db
          (invoicePaymentRow p.customer_id p.id sid amount "failed") with
      | none => db
      | some db1 => update_project db1 p.id [.subscription_status "past_due"]

/-! ## Webhook endpoint (`server.stripe_webhook`) -/

/-- A signature-verified Stripe event, as dispatched by the endpoint. -/
inductive StripeEvent
  | checkoutSessionCompleted (s : CheckoutSession)
  | paymentIntentSucceeded (intent : Option String)
  | paymentIntentFailed (intent : Option String)
  | customerSubscriptionCreated (s : SubEvent)
  | customerSubscriptionDeleted (s : SubEvent)
  | customerSubscriptionUpdated (s : SubEvent)
  | invoicePaymentSucceeded (invoice : Invoice)
  | invoicePaymentFailed (invoice : Invoice)
deriving DecidableEq, Repr

/-- `server.stripe_webhook` after signature verification: dispatches on
the event type and always answers `200` (`jsonify({'status': 'success'})`),
so Stripe never retries a processed event. -/
def stripe_webhook (oracle : StripeOracle) (db : DB) (e : StripeEvent) :
    DB × Nat :=
  match e with
  | .checkoutSessionCompleted s => (handle_successful_payment db s, 200)
  | .paymentIntentSucceeded i =>
      (match i with
       | some s => update_payment_status db s "succeeded"
       | none => db, 200)
  | .paymentIntentFailed i =>
      (match i with
       | some s => update_payment_status db s "failed"
       | none => db, 200)
  | .customerSubscriptionCreated s => (handle_subscription_created db s, 200)
  | .customerSubscriptionDeleted s => (handle_subscription_cancelled db s, 200)
  | .customerSubscriptionUpdated s => (handle_subscription_updated db s, 200)
  | .invoicePaymentSucceeded inv =>
      (match inv.subscription with
       | some _ => handle_subscription_payment_succeeded oracle db inv
       | none => db, 200)
  | .invoicePaymentFailed inv =>
      (match inv.subscription with
       | some _ => handle_subscription_payment_failed db inv
       | none => db, 200)

/-! ## Manual-payment operations (blueprints) -/

/-- The locally synthesized external reference of
`record_manual_payment`: the Python f-string
`f'manual_{project_id}_{int(datetime.now().timestamp())}'`. -/
def manualPaymentRef (pid : Nat) (now_ts : Nat) : String :=
  "manual_" ++ toString pid ++ "_" ++ toString now_ts

/-- The payment row the admin `record_manual_payment` action inserts. -/
def manualPaymentRow (cid pid : Nat) (amount : Rat) (method : String)
    (now_ts : Nat) : Payment :=
  { customer_id := cid
    project_id := some pid
    milestone_id := none
    stripe_payment_intent_id := some (manualPaymentRef pid now_ts)
    stripe_checkout_session_id := none
    stripe_subscription_id := none
    amount := amount
    payment_type := "subscription"
    status := "succeeded"
    payment_method := some method }

/-- The `record_manual_payment` action of
`admin_blueprint.manage_subscription`.  `amount` is the result of
`float(...)` on the form field (`none` = missing or unparseable, rejected
before any mutation); `next_date` likewise pre-parsed.  An
`IntegrityError` on the synthesized reference propagates, aborting before
`update_project_paid_amount`. -/
def record_manual_payment (db : DB) (pid : Nat) (amount : Option Rat)
    (method : String) (next_date : Option Nat) (now_ts : Nat) : DB :=
  match get_project_by_id db pid with
  | none => db
  | some p =>
    if method = "venmo" ∨ method = "cashapp" ∨ method = "zelle" then
      match amount with
      | none => db
      | some a =>
        match create_payment db (manualPaymentRow p.customer_id pid a method now_ts) with
        | none => db
        | some db1 =>
          let db2 := update_project_paid_amount db1 pid a
          match next_date with
          | some d => update_project db2 pid [.next_payment_date (some d)]
          | none => db2
    else db

/-- `customers_blueprint.confirm_manual_payment`: the customer self-report.
It validates ownership and the method, then runs a single
`update_project(project_id, payment_method_type='manual',
subscription_status='pending')` — no payment INSERT anywhere (the e-mail
notification is dropped). -/
def confirm_manual_payment (db : DB) (customer_id pid : Nat)
    (method : String) : DB :=
  match get_project_by_id db pid with
  | none => db
  | some p =>
    if p.customer_id = customer_id then
      if method = "venmo" ∨ method = "cashapp" ∨ method = "zelle" then
        update_project db pid
          [.payment_method_type "manual", .subscription_status "pending"]
      else db
    else db

/-- `customers_blueprint.switch_to_manual`: validates ownership and
`is_subscription`, then `update_project(project_id,
payment_method_type='manual')`. -/
def switch_to_manual (db : DB) (customer_id pid : Nat) : DB :=
  match get_project_by_id db pid with
  | none => db
  | some p =>
    if p.customer_id = customer_id then
      if p.is_subscription then
        update_project db pid [.payment_method_type "manual"]
      else db
    else db

/-- The `switch_payment_method` action of
`admin_blueprint.manage_subscription`. -/
def admin_switch_payment_method (db : DB) (pid : Nat) (m : String) : DB :=
  match get_project_by_id db pid with
  | none => db
  | some _ =>
    if m = "stripe" ∨ m = "manual" ∨ m = "both" then
      update_project db pid [.payment_method_type m]
    else db

/-! ## Periodic backfill (`customers_blueprint.py`) -/

/-- One loop iteration of `backfill_subscription_payment_dates`: skip
unless the snapshot row has no next payment date and a subscription id;
a failing Stripe read is caught per item. -/
def backfillStep (oracle : StripeOracle) (db : DB) (row : ActiveSubRow) : DB :=
  if row.next_payment_date = none ∧ row.stripe_subscription_id ≠ none then
    match row.stripe_subscription_id with
    | none => db
    | some sid =>
      match oracle sid with
      | none => db
      | some info =>
        match info.items_current_period_end with
        | none => db
        | some t => update_project db row.id [.next_payment_date (some t)]
  else db

/-- `customers_blueprint.backfill_subscription_payment_dates`: snapshots
the active-subscription projects once, then sweeps them; per-project
failures are logged and skipped. -/
def backfill_subscription_payment_dates (oracle : StripeOracle) (db : DB) :
    DB :=
  (get_active_subscription_projects db).foldl (backfillStep oracle) db

/-! ## Frame and lookup lemmas for the store primitives -/

theorem applyKwarg_id (p : Project) (k : ProjKwarg) :
    (applyKwarg p k).id = p.id := by
  cases k <;> rfl

theorem applyKwargs_id (p : Project) (ks : List ProjKwarg) :
    (applyKwargs p ks).id = p.id := by
  induction ks generalizing p with
  | nil => rfl
  | cons k ks ih =>
    show (applyKwargs (applyKwarg p k) ks).id = p.id
    rw [ih, applyKwarg_id]

theorem applyKwarg_amount_paid (p : Project) (k : ProjKwarg) :
    (applyKwarg p k).amount_paid = p.amount_paid := by
  cases k <;> rfl

theorem applyKwargs_amount_paid (p : Project) (ks : List ProjKwarg) :
    (applyKwargs p ks).amount_paid = p.amount_paid := by
  induction ks generalizing p with
  | nil => rfl
  | cons k ks ih =>
    show (applyKwargs (applyKwarg p k) ks).amount_paid = p.amount_paid
    rw [ih, applyKwarg_amount_paid]

theorem applyKwarg_customer_id (p : Project) (k : ProjKwarg) :
    (applyKwarg p k).customer_id = p.customer_id := by
  cases k <;> rfl

theorem applyKwarg_is_subscription (p : Project) (k : ProjKwarg) :
    (applyKwarg p k).is_subscription = p.is_subscription := by
  cases k <;> rfl

theorem applyKwarg_created_at (p : Project) (k : ProjKwarg) :
    (applyKwarg p k).created_at = p.created_at := by
  cases k <;> rfl

theorem kwargAllowed_payment_method_type (v : String) :
    kwargAllowed (ProjKwarg.payment_method_type v) = false := by
  rfl

theorem applyKwarg_pmt_of_allowed (p : Project) (k : ProjKwarg)
    (h : kwargAllowed k = true) :
    (applyKwarg p k).payment_method_type = p.payment_method_type := by
  cases k with
  | payment_method_type v =>
      rw [kwargAllowed_payment_method_type] at h
      exact absurd h (by decide)
  | _ => rfl

theorem applyKwargs_pmt_of_allowed (p : Project) (ks : List ProjKwarg)
    (h : ∀ k ∈ ks, kwargAllowed k = true) :
    (applyKwargs p ks).payment_method_type = p.payment_method_type := by
  induction ks generalizing p with
  | nil => rfl
  | cons k ks ih =>
    show (applyKwargs (applyKwarg p k) ks).payment_method_type = p.payment_method_type
    rw [ih _ (fun x hx => h x (List.mem_cons_of_mem _ hx)),
        applyKwarg_pmt_of_allowed _ _ (h k (List.mem_cons_self _ _))]

theorem find?_map_of_pred {α : Type} (g : α → α) (q : α → Bool) (l : List α)
    (h : ∀ a, q (g a) = q a) : (l.map g).find? q = (l.find? q).map g := by
  induction l with
  | nil => rfl
  | cons a l ih =>
    by_cases hq : q a = true
    · rw [List.map_cons, List.find?_cons_of_pos _ (by rw [h a]; exact hq),
          List.find?_cons_of_pos _ hq]
      rfl
    · rw [List.map_cons, List.find?_cons_of_neg _ (by rw [h a]; exact hq),
          List.find?_cons_of_neg _ hq, ih]

theorem find_id_updateRows (rows : List Project) (pid target : Nat)
    (f : Project → Project) (hf : ∀ p, (f p).id = p.id) :
    (updateRows rows pid f).find? (fun p => p.id == target) =
      (rows.find? (fun p => p.id == target)).map
        (fun p => if p.id = pid then f p else p) := by
  apply find?_map_of_pred
  intro p
  by_cases h : p.id = pid <;> simp [h, hf]

theorem get_project_by_id_mem (db : DB) (pid : Nat) (p : Project)
    (h : get_project_by_id db pid = some p) : p ∈ db.projects ∧ p.id = pid := by
  unfold get_project_by_id at h
  refine ⟨List.mem_of_find?_eq_some h, ?_⟩
  have := List.find?_some h
  simpa using this

theorem get_update_project (db : DB) (pid : Nat) (ks : List ProjKwarg)
    (target : Nat) :
    get_project_by_id (update_project db pid ks) target =
      (get_project_by_id db target).map
        (fun p => if p.id = pid then applyKwargs p (ks.filter kwargAllowed) else p) := by
  unfold update_project get_project_by_id
  by_cases h : (ks.filter kwargAllowed).isEmpty
  · rw [if_pos h]
    rw [List.isEmpty_iff] at h
    rw [h]
    have : (fun p => if p.id = pid then applyKwargs p ([] : List ProjKwarg) else p) = fun p : Project => p := by
      funext p
      by_cases hp : p.id = pid <;> simp [hp, applyKwargs]
    rw [this]
    cases db.projects.find? (fun p => p.id == target) <;> rfl
  · rw [if_neg h]
    exact find_id_updateRows _ _ _ _ (fun p => applyKwargs_id p _)

theorem get_update_paid (db : DB) (pid : Nat) (amt : Rat) (target : Nat) :
    get_project_by_id (update_project_paid_amount db pid amt) target =
      (get_project_by_id db target).map
        (fun p => if p.id = pid then bumpPaid amt p else p) := by
  unfold update_project_paid_amount get_project_by_id
  exact find_id_updateRows _ _ _ _ (fun p => rfl)

theorem customers_update_project (db : DB) (pid : Nat) (ks : List ProjKwarg) :
    (update_project db pid ks).customers = db.customers := by
  unfold update_project
  split <;> rfl

theorem milestones_update_project (db : DB) (pid : Nat) (ks : List ProjKwarg) :
    (update_project db pid ks).milestones = db.milestones := by
  unfold update_project
  split <;> rfl

theorem payments_update_project (db : DB) (pid : Nat) (ks : List ProjKwarg) :
    (update_project db pid ks).payments = db.payments := by
  unfold update_project
  split <;> rfl

theorem links_update_project (db : DB) (pid : Nat) (ks : List ProjKwarg) :
    (update_project db pid ks).payment_links = db.payment_links := by
  unfold update_project
  split <;> rfl

theorem create_payment_some (db : DB) (p : Payment) (db2 : DB)
    (h : create_payment db p = some db2) :
    db2 = { db with payments := db.payments ++ [p] } := by
  unfold create_payment at h
  split at h
  · exact absurd h (by simp)
  · exact (Option.some.injEq _ _ ▸ h).symm

theorem create_payment_of_no_conflict (db : DB) (p : Payment)
    (h : intentConflict db p = false) :
    create_payment db p = some { db with payments := db.payments ++ [p] } := by
  unfold create_payment
  rw [if_neg (by simp [h])]

theorem get_customer_by_email_congr (db db2 : DB) (e : String)
    (h : db2.customers = db.customers) :
    get_customer_by_email db2 e = get_customer_by_email db e := by
  unfold get_customer_by_email
  rw [h]

/-! ## Row-wise `amount_paid` comparison (for monotonicity claims) -/

/-- Row-wise comparison of `amount_paid` between two project tables of the
same shape (every operation in this core only maps project rows in place,
never inserts or deletes them). -/
def paidLE (l1 l2 : List Project) : Prop :=
  List.Forall₂ (fun p q => p.amount_paid ≤ q.amount_paid) l1 l2

theorem paidLE_refl (l : List Project) : paidLE l l := by
  induction l with
  | nil => exact List.Forall₂.nil
  | cons p l ih => exact List.Forall₂.cons le_rfl ih

theorem paidLE_of_eq {l1 l2 : List Project} (h : l1 = l2) : paidLE l1 l2 := by
  rw [h]; exact paidLE_refl l2

theorem paidLE_trans {a b c : List Project} (h1 : paidLE a b)
    (h2 : paidLE b c) : paidLE a c := by
  induction h1 generalizing c with
  | nil => cases h2; exact List.Forall₂.nil
  | cons hab _ ih =>
    cases h2 with
    | cons hbc h2 => exact List.Forall₂.cons (le_trans hab hbc) (ih h2)

theorem paidLE_map (l : List Project) (f : Project → Project)
    (hf : ∀ p, p.amount_paid ≤ (f p).amount_paid) : paidLE l (l.map f) := by
  induction l with
  | nil => exact List.Forall₂.nil
  | cons p l ih => exact List.Forall₂.cons (hf p) ih

theorem paidLE_updateRows (rows : List Project) (pid : Nat)
    (f : Project → Project) (hf : ∀ p, p.amount_paid ≤ (f p).amount_paid) :
    paidLE rows (updateRows rows pid f) := by
  apply paidLE_map
  intro p
  by_cases h : p.id = pid <;> simp [h, hf]

theorem paidLE_update_project (db : DB) (pid : Nat) (ks : List ProjKwarg) :
    paidLE db.projects (update_project db pid ks).projects := by
  unfold update_project
  split
  · exact paidLE_refl _
  · exact paidLE_updateRows _ _ _
      (fun p => le_of_eq (applyKwargs_amount_paid p _).symm)

theorem paidLE_update_paid (db : DB) (pid : Nat) (amt : Rat) (h : 0 ≤ amt) :
    paidLE db.projects (update_project_paid_amount db pid amt).projects := by
  exact paidLE_updateRows _ _ _ (fun p => le_add_of_nonneg_right h)

/-! ## The conservation invariant -/

/-- Sum of the amounts of succeeded payments referencing project `pid`. -/
def succeededSum (ps : List Payment) (pid : Nat) : Rat :=
  ((ps.filter (fun q => q.status == "succeeded" && q.project_id == some pid)).map
    (fun q => q.amount)).sum

/-- Conservation: each project row caches exactly the sum of the succeeded
payments referencing it (spec §8, "Conservation"). -/
def conservative (db : DB) : Prop :=
  ∀ p ∈ db.projects, p.amount_paid = succeededSum db.payments p.id

theorem succeededSum_append (ps : List Payment) (q : Payment) (pid : Nat) :
    succeededSum (ps ++ [q]) pid = succeededSum ps pid +
      (if q.status == "succeeded" && q.project_id == some pid
       then q.amount else 0) := by
  unfold succeededSum
  rw [List.filter_append]
  by_cases h : (q.status == "succeeded" && q.project_id == some pid) = true
  · rw [if_pos h]
    simp [List.filter, h]
  · rw [if_neg h]
    simp [List.filter, h]

theorem conservative_congr (db1 db2 : DB) (hp : db2.projects = db1.projects)
    (hq : db2.payments = db1.payments) (h : conservative db1) :
    conservative db2 := by
  intro p hmem
  rw [hp] at hmem
  rw [hq]
  exact h p hmem

theorem conservative_mapRows (db : DB) (g : Project → Project)
    (hid : ∀ p, (g p).id = p.id)
    (hpaid : ∀ p, (g p).amount_paid = p.amount_paid)
    (h : conservative db) :
    conservative { db with projects := db.projects.map g } := by
  intro p hmem
  rcases List.mem_map.mp hmem with ⟨r, hr, rfl⟩
  rw [hid, hpaid]
  exact h r hr

theorem conservative_update_project (db : DB) (pid : Nat)
    (ks : List ProjKwarg) (h : conservative db) :
    conservative (update_project db pid ks) := by
  unfold update_project
  split
  · exact h
  · apply conservative_mapRows
    · intro p
      by_cases hp : p.id = pid <;> simp [hp, applyKwargs_id]
    · intro p
      by_cases hp : p.id = pid <;> simp [hp, applyKwargs_amount_paid]
    · exact h

/-- Inserting a succeeded payment for `pid` and bumping `amount_paid` of
`pid` by the same amount preserves conservation. -/
theorem conservative_insert_bump (db : DB) (row : Payment) (pid : Nat)
    (hrow : row.project_id = some pid) (hst : row.status = "succeeded")
    (h : conservative db) :
    conservative (update_project_paid_amount
      { db with payments := db.payments ++ [row] } pid row.amount) := by
  intro p hmem
  unfold update_project_paid_amount updateRows at hmem
  rcases List.mem_map.mp hmem with ⟨r, hr, rfl⟩
  show _ = succeededSum (db.payments ++ [row]) _
  by_cases hid : r.id = pid
  · rw [if_pos hid]
    show r.amount_paid + row.amount = _
    rw [succeededSum_append]
    have hcond : (row.status == "succeeded" &&
        row.project_id == some (bumpPaid row.amount r).id) = true := by
      have hbid : (bumpPaid row.amount r).id = r.id := rfl
      simp [hst, hrow, hbid, hid]
    rw [if_pos hcond]
    have hbid : (bumpPaid row.amount r).id = r.id := rfl
    rw [hbid, h r hr, hid]
  · rw [if_neg hid]
    rw [succeededSum_append]
    have hcond : ¬((row.status == "succeeded" &&
        row.project_id == some r.id) = true) := by
      simp [hst, hrow]
      intro hc
      exact hid hc.symm
    rw [if_neg hcond, add_zero]
    exact h r hr

/-- Inserting a non-succeeded payment preserves conservation. -/
theorem conservative_insert_other (db : DB) (row : Payment)
    (hst : ¬(row.status = "succeeded")) (h : conservative db) :
    conservative { db with payments := db.payments ++ [row] } := by
  intro p hmem
  show _ = succeededSum (db.payments ++ [row]) _
  rw [succeededSum_append]
  have hcond : ¬((row.status == "succeeded" &&
      row.project_id == some p.id) = true) := by
    simp
    intro hc
    exact absurd hc hst
  rw [if_neg hcond, add_zero]
  exact h p hmem

/-! ## Projections of the remaining primitives -/

theorem projects_create_payment {db db2 : DB} {p : Payment}
    (h : create_payment db p = some db2) : db2.projects = db.projects := by
  rw [create_payment_some _ _ _ h]

theorem payments_create_payment {db db2 : DB} {p : Payment}
    (h : create_payment db p = some db2) :
    db2.payments = db.payments ++ [p] := by
  rw [create_payment_some _ _ _ h]

theorem customers_create_payment {db db2 : DB} {p : Payment}
    (h : create_payment db p = some db2) : db2.customers = db.customers := by
  rw [create_payment_some _ _ _ h]

/-! ## Conservation through each handler -/

/-- `handle_successful_payment` preserves conservation: the one-time path
adds a succeeded payment for the metadata project and bumps the same
project's `amount_paid` by the same amount; every other branch leaves
projects and payments untouched. -/
theorem conservative_handle_successful_payment (db : DB)
    (cs : CheckoutSession) (h : conservative db) :
    conservative (handle_successful_payment db cs) := by
  unfold handle_successful_payment
  split
  · rename_i u v cid pid hcid hpid
    split
    · split
      · exact conservative_update_project _ _ _ h
      · exact h
    · dsimp only
      split
      · exact h
      · rename_i db1 heq
        have hdb1 := create_payment_some _ _ _ heq
        subst hdb1
        have h2 : conservative (update_project_paid_amount
            { db with payments := db.payments ++ [checkoutPaymentRow cs cid pid] }
            pid (cs.amount_total / 100)) :=
          conservative_insert_bump db (checkoutPaymentRow cs cid pid) pid rfl rfl h
        repeat' split
        all_goals exact conservative_congr _ _ rfl rfl h2
  · exact h

/-- `handle_subscription_payment_failed` preserves conservation: the
recorded payment has status `failed`, which the succeeded-sum ignores. -/
theorem conservative_handle_subscription_payment_failed (db : DB)
    (inv : Invoice) (h : conservative db) :
    conservative (handle_subscription_payment_failed db inv) := by
  unfold handle_subscription_payment_failed
  split
  · exact h
  · dsimp only
    split
    · exact h
    · split
      · exact h
      · rename_i db1 heq
        have hdb1 := create_payment_some _ _ _ heq
        subst hdb1
        refine conservative_update_project _ _ _ ?_
        refine conservative_insert_other db _ ?_ h
        exact fun hc => absurd hc
          (by decide : ¬(("failed" : String) = "succeeded"))

/-- The admin `record_manual_payment` action preserves conservation: it
inserts one succeeded payment for the project and bumps `amount_paid` by
the same amount. -/
theorem conservative_record_manual_payment (db : DB) (pid : Nat)
    (amount : Option Rat) (method : String) (next_date : Option Nat)
    (now_ts : Nat) (h : conservative db) :
    conservative (record_manual_payment db pid amount method next_date now_ts) := by
  unfold record_manual_payment
  split
  · exact h
  · rename_i p hp
    split
    · split
      · exact h
      · rename_i a
        split
        · exact h
        · rename_i db1 heq
          have hdb1 := create_payment_some _ _ _ heq
          subst hdb1
          have h2 : conservative (update_project_paid_amount
              { db with payments := db.payments ++ [manualPaymentRow p.customer_id pid a method now_ts] }
              pid a) :=
            conservative_insert_bump db _ pid rfl rfl h
          split
          · exact conservative_update_project _ _ _ h2
          · exact h2
    · exact h

/-! ## Row-wise monotonicity through each operation -/

theorem paidLE_create_of {l : List Project} {db db2 : DB} {r : Payment}
    (h1 : paidLE l db.projects) (heq : create_payment db r = some db2) :
    paidLE l db2.projects :=
  paidLE_trans h1 (paidLE_of_eq (projects_create_payment heq).symm)

theorem paidLE_handle_successful_payment (db : DB) (cs : CheckoutSession)
    (h : 0 ≤ cs.amount_total) :
    paidLE db.projects (handle_successful_payment db cs).projects := by
  have hdiv : 0 ≤ cs.amount_total / 100 := by positivity
  unfold handle_successful_payment
  split
  · rename_i u v cid pid hcid hpid
    split
    · split
      · exact paidLE_update_project _ _ _
      · exact paidLE_refl _
    · dsimp only
      split
      · exact paidLE_refl _
      · rename_i db1 heq
        have hp1 : db1.projects = db.projects := projects_create_payment heq
        have h2 : paidLE db.projects
            (update_project_paid_amount db1 pid (cs.amount_total / 100)).projects := by
          unfold update_project_paid_amount
          show paidLE db.projects (updateRows db1.projects pid _)
          rw [hp1]
          exact paidLE_updateRows _ _ _ (fun p => le_add_of_nonneg_right hdiv)
        repeat' split
        all_goals exact h2
  · exact paidLE_refl _

theorem paidLE_handle_subscription_created_link (db : DB) (s : SubEvent)
    (pid : Nat) :
    paidLE db.projects (handle_subscription_created_link db s pid).projects := by
  unfold handle_subscription_created_link
  dsimp only
  split
  · exact paidLE_update_project _ _ _
  · split
    · exact paidLE_update_project _ _ _
    · split
      · exact paidLE_update_project _ _ _
      · split
        · exact paidLE_update_project _ _ _
        · split
          · exact paidLE_update_project _ _ _
          · rename_i db2 heq
            exact paidLE_create_of (paidLE_update_project _ _ _) heq

theorem paidLE_handle_subscription_created (db : DB) (s : SubEvent) :
    paidLE db.projects (handle_subscription_created db s).projects := by
  unfold handle_subscription_created
  split
  · exact paidLE_refl _
  · exact paidLE_handle_subscription_created_link _ _ _

theorem paidLE_handle_subscription_updated (db : DB) (s : SubEvent) :
    paidLE db.projects (handle_subscription_updated db s).projects := by
  unfold handle_subscription_updated
  split
  · exact paidLE_refl _
  · exact paidLE_update_project _ _ _

theorem paidLE_handle_subscription_cancelled (db : DB) (s : SubEvent) :
    paidLE db.projects (handle_subscription_cancelled db s).projects := by
  unfold handle_subscription_cancelled
  split
  · exact paidLE_refl _
  · exact paidLE_update_project _ _ _

theorem paidLE_handle_subscription_payment_succeeded (oracle : StripeOracle)
    (db : DB) (inv : Invoice) :
    paidLE db.projects
      (handle_subscription_payment_succeeded oracle db inv).projects := by
  unfold handle_subscription_payment_succeeded
  split
  · exact paidLE_refl _
  · dsimp only
    split
    · exact paidLE_refl _
    · split
      · exact paidLE_refl _
      · rename_i db1 heq
        have h1 : paidLE db.projects db1.projects :=
          paidLE_create_of (paidLE_refl _) heq
        split
        · exact h1
        · split
          · exact h1
          · exact paidLE_trans h1 (paidLE_update_project _ _ _)

theorem paidLE_handle_subscription_payment_failed (db : DB) (inv : Invoice) :
    paidLE db.projects (handle_subscription_payment_failed db inv).projects := by
  unfold handle_subscription_payment_failed
  split
  · exact paidLE_refl _
  · dsimp only
    split
    · exact paidLE_refl _
    · split
      · exact paidLE_refl _
      · rename_i db1 heq
        exact paidLE_trans (paidLE_create_of (paidLE_refl _) heq)
          (paidLE_update_project _ _ _)

theorem paidLE_record_manual_payment (db : DB) (pid : Nat)
    (amount : Option Rat) (method : String) (next_date : Option Nat)
    (now_ts : Nat) (h : ∀ q, amount = some q → 0 ≤ q) :
    paidLE db.projects
      (record_manual_payment db pid amount method next_date now_ts).projects := by
  unfold record_manual_payment
  split
  · exact paidLE_refl _
  · split
    · split
      · exact paidLE_refl _
      · rename_i a
        split
        · exact paidLE_refl _
        · rename_i db1 heq
          have hp1 : db1.projects = db.projects := projects_create_payment heq
          have h2 : paidLE db.projects
              (update_project_paid_amount db1 pid a).projects := by
            unfold update_project_paid_amount
            show paidLE db.projects (updateRows db1.projects pid _)
            rw [hp1]
            exact paidLE_updateRows _ _ _
              (fun p => le_add_of_nonneg_right (h a rfl))
          split
          · exact paidLE_trans h2 (paidLE_update_project _ _ _)
          · exact h2
    · exact paidLE_refl _

theorem paidLE_update_payment_status (db : DB) (i st : String) :
    paidLE db.projects (update_payment_status db i st).projects :=
  paidLE_refl _

theorem paidLE_backfillStep (oracle : StripeOracle) (db : DB)
    (row : ActiveSubRow) :
    paidLE db.projects (backfillStep oracle db row).projects := by
  unfold backfillStep
  repeat' split
  all_goals first
    | exact paidLE_refl _
    | exact paidLE_update_project _ _ _

theorem paidLE_backfill_foldl (oracle : StripeOracle)
    (rows : List ActiveSubRow) (db : DB) :
    paidLE db.projects ((rows.foldl (backfillStep oracle) db)).projects := by
  induction rows generalizing db with
  | nil => exact paidLE_refl _
  | cons r rows ih =>
      exact paidLE_trans (paidLE_backfillStep oracle db r) (ih _)

theorem paidLE_backfill (oracle : StripeOracle) (db : DB) :
    paidLE db.projects
      (backfill_subscription_payment_dates oracle db).projects :=
  paidLE_backfill_foldl oracle _ db

/-! ## Event layers used by the cross-cutting claims -/

/-- The committed event applications named by the conservation claim:
checkout completed, subscription created, invoice paid, invoice failed,
manual payment recorded. -/
inductive LedgerEvent
  | checkoutCompleted (s : CheckoutSession)
  | subscriptionCreated (s : SubEvent)
  | invoicePaid (inv : Invoice)
  | invoiceFailed (inv : Invoice)
  | manualPaymentRecorded (pid : Nat) (amount : Option Rat) (method : String)
      (next_date : Option Nat) (now_ts : Nat)
deriving DecidableEq, Repr

/-- Applying one committed event through its handler. -/
def applyLedgerEvent (oracle : StripeOracle) (db : DB) : LedgerEvent → DB
  | .checkoutCompleted s => handle_successful_payment db s
  | .subscriptionCreated s => handle_subscription_created db s
  | .invoicePaid inv => handle_subscription_payment_succeeded oracle db inv
  | .invoiceFailed inv => handle_subscription_payment_failed db inv
  | .manualPaymentRecorded pid a m nd ts => record_manual_payment db pid a m nd ts

/-- Applying a sequence of committed events, oldest first. -/
def applyLedgerEvents (oracle : StripeOracle) (db : DB)
    (es : List LedgerEvent) : DB :=
  es.foldl (applyLedgerEvent oracle) db

/-- The event kinds whose handlers keep `amount_paid` in sync with the
payment ledger.  `subscriptionCreated` and `invoicePaid` are excluded:
their handlers insert succeeded payments without ever calling
`update_project_paid_amount`. -/
def conservationSafe : LedgerEvent → Prop
  | .checkoutCompleted _ => True
  | .invoiceFailed _ => True
  | .manualPaymentRecorded _ _ _ _ _ => True
  | .subscriptionCreated _ => False
  | .invoicePaid _ => False

/-- Every event handled by this core: a signature-verified webhook
delivery, one backfill sweep, or the admin manual-payment recording. -/
inductive CoreOp
  | webhookDelivery (e : StripeEvent)
  | backfillSweep
  | recordManualPayment (pid : Nat) (amount : Option Rat) (method : String)
      (next_date : Option Nat) (now_ts : Nat)

/-- Applying one core operation. -/
def applyCoreOp (oracle : StripeOracle) (db : DB) : CoreOp → DB
  | .webhookDelivery e => (stripe_webhook oracle db e).1
  | .backfillSweep => backfill_subscription_payment_dates oracle db
  | .recordManualPayment pid a m nd ts => record_manual_payment db pid a m nd ts

/-- The amounts an operation carries are nonnegative.  Only the one-time
checkout settlement and the admin-typed manual amount ever reach
`update_project_paid_amount`. -/
def coreOpAmountsNonneg : CoreOp → Prop
  | .webhookDelivery (.checkoutSessionCompleted s) => 0 ≤ s.amount_total
  | .recordManualPayment _ a _ _ _ => ∀ q, a = some q → 0 ≤ q
  | _ => True

/-! ## Concrete fixtures used by counterexamples and witnesses -/

/-- A customer row. -/
def amy : Customer := ⟨1, "amy@example.com"⟩

/-- A one-time project owned by `amy`, price 200, nothing paid yet. -/
def oneTimeProject : Project :=
  { id := 1, customer_id := 1, status := "in_progress", total_amount := 200,
    amount_paid := 0, is_subscription := false,
    stripe_subscription_id := none, subscription_status := "inactive",
    next_payment_date := none, payment_method_type := none, created_at := 10 }

/-- A subscription project of `amy` not yet linked to Stripe. -/
def subProjectUnlinked : Project :=
  { id := 2, customer_id := 1, status := "in_progress", total_amount := 50,
    amount_paid := 0, is_subscription := true,
    stripe_subscription_id := none, subscription_status := "inactive",
    next_payment_date := none, payment_method_type := none, created_at := 11 }

/-- A subscription project of `amy` linked to Stripe subscription `sub_1`,
active, with no next payment date recorded. -/
def subProjectLinked : Project :=
  { id := 3, customer_id := 1, status := "in_progress", total_amount := 50,
    amount_paid := 0, is_subscription := true,
    stripe_subscription_id := some "sub_1", subscription_status := "active",
    next_payment_date := none, payment_method_type := none, created_at := 12 }

/-- A subscription project of `amy` whose subscription was cancelled while
the Stripe link `sub_2` is still recorded. -/
def cancelledSubProject : Project :=
  { id := 4, customer_id := 1, status := "in_progress", total_amount := 50,
    amount_paid := 0, is_subscription := true,
    stripe_subscription_id := some "sub_2",
    subscription_status := "cancelled", next_payment_date := none,
    payment_method_type := none, created_at := 13 }

/-- An oracle for which every outbound Stripe read raises. -/
def failingOracle : StripeOracle := fun _ => none

/-! ## Claim C10 -/

theorem forall2_pmt_map (l : List Project) (f : Project → Project)
    (hf : ∀ p, (f p).payment_method_type = p.payment_method_type) :
    List.Forall₂ (fun p q => q.payment_method_type = p.payment_method_type)
      l (l.map f) := by
  induction l with
  | nil => exact List.Forall₂.nil
  | cons p l ih => exact List.Forall₂.cons (hf p) ih

/-- C10: `update_project` silently ignores every keyword argument outside
its allow-list, and `payment_method_type` is not in the list.
Consequently (i) no call to `update_project` ever changes any project's
`payment_method_type`; (ii) the customer `switch_to_manual` operation and
the admin `switch_payment_method` action, whose only kwarg is
`payment_method_type`, are exact no-ops on the store (the empty update is
skipped); and (iii) `confirm_manual_payment` still applies its other
listed field: for a valid request the target project ends exactly as
before except `subscription_status = "pending"`. -/
theorem C10_payment_method_type_never_updated :
    (∀ (db : DB) (pid : Nat) (ks : List ProjKwarg),
      List.Forall₂ (fun p q => q.payment_method_type = p.payment_method_type)
        db.projects (update_project db pid ks).projects)
    ∧ (∀ (db : DB) (cid pid : Nat), switch_to_manual db cid pid = db)
    ∧ (∀ (db : DB) (pid : Nat) (m : String),
        admin_switch_payment_method db pid m = db)
    ∧ (∀ (db : DB) (cid pid : Nat) (m : String) (p : Project),
        get_project_by_id db pid = some p → p.customer_id = cid →
        (m = "venmo" ∨ m = "cashapp" ∨ m = "zelle") →
        get_project_by_id (confirm_manual_payment db cid pid m) pid =
          some { p with subscription_status := "pending" }) := by
  have hdrop : ∀ (db : DB) (pid : Nat) (v : String),
      update_project db pid [ProjKwarg.payment_method_type v] = db := by
    intro db pid v
    unfold update_project
    rw [if_pos]
    rfl
  refine ⟨?_, ?_, ?_, ?_⟩
  · intro db pid ks
    unfold update_project
    split
    · generalize db.projects = l
      induction l with
      | nil => exact List.Forall₂.nil
      | cons p l ih => exact List.Forall₂.cons rfl ih
    · exact forall2_pmt_map _ _ (fun p => by
        by_cases hp : p.id = pid
        · simp only [updateRows, hp, if_pos]
          exact applyKwargs_pmt_of_allowed _ _
            (fun k hk => (List.mem_filter.mp hk).2)
        · simp [updateRows, hp])
  · intro db cid pid
    unfold switch_to_manual
    split
    · rfl
    · split
      · split
        · exact hdrop _ _ _
        · rfl
      · rfl
  · intro db pid m
    unfold admin_switch_payment_method
    split
    · rfl
    · split
      · exact hdrop _ _ _
      · rfl
  · intro db cid pid m p hp hown hm
    unfold confirm_manual_payment
    rw [hp]
    show get_project_by_id (if p.customer_id = cid then _ else _) pid = _
    rw [if_pos hown, if_pos hm]
    rw [get_update_project, hp]
    have hpid : p.id = pid := (get_project_by_id_mem db pid p hp).2
    simp only [Option.map_some']
    rw [if_pos hpid]
    rfl

/-- C10 witness: a concrete run on a linked subscription project with
`payment_method_type = none`: the customer confirmation sets the pending
subscription status and changes nothing else. -/
theorem C10_witness :
    get_project_by_id (confirm_manual_payment
        ⟨[amy], [subProjectLinked], [], [], []⟩ 1 3 "venmo") 3 =
      some { subProjectLinked with subscription_status := "pending" } :=
  C10_payment_method_type_never_updated.2.2.2
    ⟨[amy], [subProjectLinked], [], [], []⟩ 1 3 "venmo" subProjectLinked
    (by decide) (by decide) (Or.inl rfl)

/-! ## Claim C5 -/

/-- C5: the customer-facing `confirm_manual_payment` never inserts a row
into the payments table — on any input it leaves `payments` exactly as it
was (its only store write is the project update that sets
`subscription_status` to `pending`) — while the admin
`record_manual_payment` action inserts exactly one succeeded payment row
(when the request validates and the synthesized reference is fresh). -/
theorem C5_manual_payment_separation :
    (∀ (db : DB) (cid pid : Nat) (m : String),
      (confirm_manual_payment db cid pid m).payments = db.payments)
    ∧ (∀ (db : DB) (pid : Nat) (a : Rat) (m : String) (nd : Option Nat)
        (ts : Nat) (p : Project),
        get_project_by_id db pid = some p →
        (m = "venmo" ∨ m = "cashapp" ∨ m = "zelle") →
        intentConflict db (manualPaymentRow p.customer_id pid a m ts) = false →
        (record_manual_payment db pid (some a) m nd ts).payments =
          db.payments ++ [manualPaymentRow p.customer_id pid a m ts]
        ∧ (manualPaymentRow p.customer_id pid a m ts).status = "succeeded") := by
  constructor
  · intro db cid pid m
    unfold confirm_manual_payment
    split
    · rfl
    · split
      · split
        · exact payments_update_project _ _ _
        · rfl
      · rfl
  · intro db pid a m nd ts p hp hm hcf
    unfold record_manual_payment
    simp only [hp]
    rw [if_pos hm]
    rw [create_payment_of_no_conflict _ _ hcf]
    refine ⟨?_, rfl⟩
    cases nd with
    | none => rfl
    | some d =>
        rw [payments_update_project]
        rfl

/-- C5 witness: on a store holding just `amy` and her linked subscription
project, the confirmation leaves the payments table empty and the admin
recording appends exactly one succeeded row. -/
theorem C5_witness :
    (confirm_manual_payment ⟨[amy], [subProjectLinked], [], [], []⟩ 1 3
        "venmo").payments = [] ∧
    (record_manual_payment ⟨[amy], [subProjectLinked], [], [], []⟩ 3
        (some 50) "venmo" none 99).payments =
      [] ++ [manualPaymentRow 1 3 50 "venmo" 99] :=
  ⟨C5_manual_payment_separation.1 _ 1 3 "venmo",
   (C5_manual_payment_separation.2 ⟨[amy], [subProjectLinked], [], [], []⟩ 3
      50 "venmo" none 99 subProjectLinked (by decide) (Or.inl rfl)
      (by decide)).1⟩

/-! ## Claim C6 -/

/-- C6: a checkout-completed event whose metadata lacks the customer id or
the project id is logged and dropped without touching the store — the
handler returns with no payment insert, no `amount_paid` change and no
milestone change — and the webhook endpoint still answers 200 so the
processor does not retry. -/
theorem C6_malformed_checkout_dropped (oracle : StripeOracle) (db : DB)
    (cs : CheckoutSession)
    (h : cs.metadata.customer_id = none ∨ cs.metadata.project_id = none) :
    stripe_webhook oracle db (StripeEvent.checkoutSessionCompleted cs) =
      (db, 200) := by
  have hh : handle_successful_payment db cs = db := by
    unfold handle_successful_payment
    rcases h with h | h
    · rw [h]
    · rw [h]
      cases cs.metadata.customer_id <;> rfl
  simp only [stripe_webhook, hh]

/-- A one-time checkout payload whose metadata lacks the customer id. -/
def csMissingCustomer : CheckoutSession :=
  { id := "cs_x", mode := "payment", metadata := ⟨none, some 1, none⟩,
    amount_total := 5000, payment_intent := some "pi_x",
    subscription := none }

/-- C6 witness: the malformed event leaves a concrete store untouched and
the endpoint answers 200. -/
theorem C6_witness :
    stripe_webhook failingOracle ⟨[amy], [oneTimeProject], [], [], []⟩
        (StripeEvent.checkoutSessionCompleted csMissingCustomer) =
      (⟨[amy], [oneTimeProject], [], [], []⟩, 200) :=
  C6_malformed_checkout_dropped failingOracle _ csMissingCustomer
    (Or.inl rfl)

/-! ## Claim C1 -/

theorem intentConflict_false_of_fresh (db : DB) (row : Payment) (s : String)
    (hin : row.stripe_payment_intent_id = some s)
    (hfresh : ∀ q ∈ db.payments, q.stripe_payment_intent_id ≠ some s) :
    intentConflict db row = false := by
  unfold intentConflict
  simp only [hin]
  rw [List.any_eq_false]
  intro q hq
  rw [Bool.not_eq_true, beq_eq_false_iff_ne]
  exact hfresh q hq

theorem intentConflict_true_of_mem (db : DB) (row : Payment) (s : String)
    (hin : row.stripe_payment_intent_id = some s) (q : Payment)
    (hq : q ∈ db.payments) (hqs : q.stripe_payment_intent_id = some s) :
    intentConflict db row = true := by
  unfold intentConflict
  simp only [hin]
  rw [List.any_eq_true]
  refine ⟨q, hq, ?_⟩
  rw [hqs]
  exact beq_self_eq_true _

/-- The one-time happy path of `handle_successful_payment`: with both
metadata ids present, a non-subscription mode and no intent-id conflict,
the handler appends exactly the checkout payment row and bumps the
project's `amount_paid` by the settled amount (milestone completion and
link marking touch neither table). -/
theorem handle_one_time_shape (db : DB) (cs : CheckoutSession)
    (cid pid : Nat)
    (hcid : cs.metadata.customer_id = some cid)
    (hpid : cs.metadata.project_id = some pid)
    (hmode : ¬(cs.mode = "subscription"))
    (hnoconf : intentConflict db (checkoutPaymentRow cs cid pid) = false) :
    (handle_successful_payment db cs).payments =
      db.payments ++ [checkoutPaymentRow cs cid pid]
    ∧ (handle_successful_payment db cs).projects =
      updateRows db.projects pid (bumpPaid (cs.amount_total / 100)) := by
  unfold handle_successful_payment
  simp only [hcid, hpid]
  rw [if_neg hmode]
  rw [create_payment_of_no_conflict _ _ hnoconf]
  constructor
  · dsimp only
    repeat' split
    all_goals rfl
  · dsimp only
    repeat' split
    all_goals rfl

/-- The one-time conflict path: with an intent-id conflict the INSERT
raises, the broad `except` swallows it, and the store is left unchanged. -/
theorem handle_one_time_conflict (db : DB) (cs : CheckoutSession)
    (cid pid : Nat)
    (hcid : cs.metadata.customer_id = some cid)
    (hpid : cs.metadata.project_id = some pid)
    (hmode : ¬(cs.mode = "subscription"))
    (hconf : intentConflict db (checkoutPaymentRow cs cid pid) = true) :
    handle_successful_payment db cs = db := by
  unfold handle_successful_payment
  simp only [hcid, hpid]
  rw [if_neg hmode]
  have hc : create_payment db (checkoutPaymentRow cs cid pid) = none := by
    unfold create_payment
    rw [if_pos hconf]
  rw [hc]

/-- A one-time checkout payload with both metadata ids but no payment
intent reference. -/
def csNoIntent : CheckoutSession :=
  { id := "cs_1", mode := "payment", metadata := ⟨some 1, some 1, none⟩,
    amount_total := 5000, payment_intent := none, subscription := none }

/-- A one-time checkout payload with both metadata ids and a payment
intent reference. -/
def csWithIntent : CheckoutSession :=
  { id := "cs_2", mode := "payment", metadata := ⟨some 1, some 1, none⟩,
    amount_total := 5000, payment_intent := some "pi_1",
    subscription := none }

/-- The store for the C1 scenarios: `amy` and her one-time project. -/
def dbC1 : DB := ⟨[amy], [oneTimeProject], [], [], []⟩

/-- C1 counterexample: the handler never looks up the checkout session id
before inserting — deduplication rests solely on the UNIQUE
`stripe_payment_intent_id` column, and SQLite admits any number of NULLs
there.  Delivering the same one-time checkout-completed event (with both
identifiers but a NULL payment intent) twice yields TWO succeeded payment
rows keyed by the session id, and `amount_paid` is bumped twice
(2 × $50 on a $200 project), refuting the claim as stated. -/
theorem C1_counterexample :
    ((handle_successful_payment (handle_successful_payment dbC1 csNoIntent)
        csNoIntent).payments.filter
        (fun q => q.stripe_checkout_session_id == some "cs_1")).length = 2
    ∧ (get_project_by_id (handle_successful_payment
        (handle_successful_payment dbC1 csNoIntent) csNoIntent) 1).map
        (fun q => q.amount_paid) = some 100 := by
  have hsh1 := handle_one_time_shape dbC1 csNoIntent 1 1 rfl rfl
    (by decide) (by decide)
  have hsh2 := handle_one_time_shape (handle_successful_payment dbC1 csNoIntent)
    csNoIntent 1 1 rfl rfl (by decide) rfl
  constructor
  · rw [hsh2.1, hsh1.1, List.filter_append, List.filter_append]
    decide
  · unfold get_project_by_id
    rw [hsh2.2, hsh1.2]
    rw [find_id_updateRows
      (updateRows dbC1.projects 1 (bumpPaid (csNoIntent.amount_total / 100)))
      1 1 (bumpPaid (csNoIntent.amount_total / 100)) (fun r => rfl)]
    rw [find_id_updateRows dbC1.projects 1 1
      (bumpPaid (csNoIntent.amount_total / 100)) (fun r => rfl)]
    have hfind : dbC1.projects.find? (fun p => p.id == 1) =
        some oneTimeProject := by decide
    rw [hfind]
    simp only [Option.map_some']
    norm_num [bumpPaid, oneTimeProject, dbC1, csNoIntent]

/-- C1 (amended): for a one-time checkout-completed event carrying the
customer and project identifiers AND a payment-intent reference that no
stored payment carries yet, applying the handler twice yields exactly one
succeeded payment row keyed by the checkout's session id, and the owning
project's `amount_paid` grows by the settled amount exactly once: the
second delivery's INSERT violates the `stripe_payment_intent_id` UNIQUE
constraint and the swallowed error makes it a no-op.  (Without a payment
intent on the event, re-delivery duplicates the row — see the
counterexample.) -/
theorem C1_checkout_twice_single_payment (db : DB) (cs : CheckoutSession)
    (cid pid : Nat) (p : Project) (s : String)
    (hcid : cs.metadata.customer_id = some cid)
    (hpid : cs.metadata.project_id = some pid)
    (hmode : ¬(cs.mode = "subscription"))
    (hintent : cs.payment_intent = some s)
    (hfresh : ∀ q ∈ db.payments, q.stripe_payment_intent_id ≠ some s)
    (hsess : ∀ q ∈ db.payments, q.stripe_checkout_session_id ≠ some cs.id)
    (hp : get_project_by_id db pid = some p) :
    ((handle_successful_payment (handle_successful_payment db cs)
        cs).payments.filter
        (fun q => q.stripe_checkout_session_id == some cs.id)).map
        (fun q => q.status) = ["succeeded"]
    ∧ (get_project_by_id (handle_successful_payment
        (handle_successful_payment db cs) cs) pid).map
        (fun q => q.amount_paid) =
      some (p.amount_paid + cs.amount_total / 100) := by
  have hrowin : (checkoutPaymentRow cs cid pid).stripe_payment_intent_id =
      some s := by
    show cs.payment_intent = some s
    exact hintent
  have hnoconf : intentConflict db (checkoutPaymentRow cs cid pid) = false :=
    intentConflict_false_of_fresh db _ s hrowin hfresh
  obtain ⟨hpay1, hproj1⟩ :=
    handle_one_time_shape db cs cid pid hcid hpid hmode hnoconf
  have hconf2 : intentConflict (handle_successful_payment db cs)
      (checkoutPaymentRow cs cid pid) = true := by
    refine intentConflict_true_of_mem _ _ s hrowin
      (checkoutPaymentRow cs cid pid) ?_ hrowin
    rw [hpay1]
    exact List.mem_append_right _ (List.mem_singleton_self _)
  have hsecond : handle_successful_payment (handle_successful_payment db cs)
      cs = handle_successful_payment db cs :=
    handle_one_time_conflict _ cs cid pid hcid hpid hmode hconf2
  rw [hsecond]
  constructor
  · rw [hpay1, List.filter_append]
    have h1 : db.payments.filter
        (fun q => q.stripe_checkout_session_id == some cs.id) = [] := by
      refine List.filter_eq_nil_iff.mpr ?_
      intro q hq
      rw [Bool.not_eq_true, beq_eq_false_iff_ne]
      exact hsess q hq
    rw [h1, List.nil_append]
    have h2 : (checkoutPaymentRow cs cid pid).stripe_checkout_session_id ==
        some cs.id := by
      exact beq_self_eq_true _
    simp [List.filter, h2, checkoutPaymentRow]
  · unfold get_project_by_id
    rw [hproj1, find_id_updateRows db.projects pid pid
      (bumpPaid (cs.amount_total / 100)) (fun r => rfl)]
    unfold get_project_by_id at hp
    rw [hp]
    simp only [Option.map_some']
    have hpidp : p.id = pid := by
      have := List.find?_some hp
      simpa using this
    rw [if_pos hpidp]
    rfl

/-- C1 witness: the amended idempotence at a concrete input — event
`cs_2` with payment intent `pi_1` delivered twice against `amy`'s $200
project: one succeeded row, `amount_paid` goes up by $50 once. -/
theorem C1_witness :
    ((handle_successful_payment (handle_successful_payment dbC1 csWithIntent)
        csWithIntent).payments.filter
        (fun q => q.stripe_checkout_session_id == some csWithIntent.id)).map
        (fun q => q.status) = ["succeeded"]
    ∧ (get_project_by_id (handle_successful_payment
        (handle_successful_payment dbC1 csWithIntent) csWithIntent) 1).map
        (fun q => q.amount_paid) =
      some (oneTimeProject.amount_paid + csWithIntent.amount_total / 100) :=
  C1_checkout_twice_single_payment dbC1 csWithIntent 1 1 oneTimeProject
    "pi_1" rfl rfl (by decide) rfl (by decide) (by decide) (by decide)

/-! ## Claim C9 -/

theorem get_project_by_id_congr (db db2 : DB) (t : Nat)
    (h : db2.projects = db.projects) :
    get_project_by_id db2 t = get_project_by_id db t := by
  unfold get_project_by_id
  rw [h]

/-- C9 (amended): no event handled by this core ever decreases any
project's `amount_paid`, provided the amounts the event carries are
nonnegative.  The proviso is needed: processor events carry nonnegative
minor-unit totals, but the admin record-manual-payment form only checks
that the typed amount parses as a number, so a negative manual amount
decreases `amount_paid` (see the counterexample). -/
theorem C9_amount_paid_monotone (oracle : StripeOracle) (db : DB)
    (op : CoreOp) (h : coreOpAmountsNonneg op) :
    paidLE db.projects (applyCoreOp oracle db op).projects := by
  cases op with
  | webhookDelivery e =>
    cases e with
    | checkoutSessionCompleted s =>
        exact paidLE_handle_successful_payment db s h
    | paymentIntentSucceeded i =>
        cases i with
        | none => exact paidLE_refl _
        | some s => exact paidLE_update_payment_status db s "succeeded"
    | paymentIntentFailed i =>
        cases i with
        | none => exact paidLE_refl _
        | some s => exact paidLE_update_payment_status db s "failed"
    | customerSubscriptionCreated s =>
        exact paidLE_handle_subscription_created db s
    | customerSubscriptionDeleted s =>
        exact paidLE_handle_subscription_cancelled db s
    | customerSubscriptionUpdated s =>
        exact paidLE_handle_subscription_updated db s
    | invoicePaymentSucceeded inv =>
        simp only [applyCoreOp, stripe_webhook]
        split
        · exact paidLE_handle_subscription_payment_succeeded oracle db inv
        · exact paidLE_refl _
    | invoicePaymentFailed inv =>
        simp only [applyCoreOp, stripe_webhook]
        split
        · exact paidLE_handle_subscription_payment_failed db inv
        · exact paidLE_refl _
  | backfillSweep => exact paidLE_backfill oracle db
  | recordManualPayment pid a m nd ts =>
      exact paidLE_record_manual_payment db pid a m nd ts h

/-- A project of `amy` with $100 already paid. -/
def paidProject : Project :=
  { id := 5, customer_id := 1, status := "in_progress", total_amount := 200,
    amount_paid := 100, is_subscription := true,
    stripe_subscription_id := none, subscription_status := "inactive",
    next_payment_date := none, payment_method_type := none, created_at := 14 }

/-- The store for the C9 counterexample. -/
def dbC9 : DB := ⟨[amy], [paidProject], [], [], []⟩

/-- C9 counterexample: the admin record-manual-payment form validates the
amount only with `float(...)`, so recording a manual payment of −50 is
accepted and drops the project's `amount_paid` from 100 to 50 — an event
of this core (not an explicit admin correction) that decreases
`amount_paid`, refuting the claim as stated. -/
theorem C9_counterexample :
    (get_project_by_id dbC9 5).map (fun p => p.amount_paid) = some 100
    ∧ (get_project_by_id (applyCoreOp failingOracle dbC9
        (CoreOp.recordManualPayment 5 (some (-50)) "venmo" none 99)) 5).map
        (fun p => p.amount_paid) = some 50 := by
  have hp : get_project_by_id dbC9 5 = some paidProject := by decide
  constructor
  · rw [hp]
    rfl
  · show (get_project_by_id
        (record_manual_payment dbC9 5 (some (-50)) "venmo" none 99) 5).map
        (fun p => p.amount_paid) = some 50
    unfold record_manual_payment
    simp only [hp]
    rw [if_pos (Or.inl trivial)]
    rw [create_payment_of_no_conflict _ _ (by decide)]
    rw [get_update_paid]
    rw [get_project_by_id_congr dbC9
      { dbC9 with payments := dbC9.payments ++
          [manualPaymentRow paidProject.customer_id 5 (-50) "venmo" 99] }
      5 rfl, hp]
    simp only [Option.map_some']
    norm_num [paidProject, bumpPaid]

/-- C9 witness: the amended monotonicity at a concrete input — recording
a valid $50 manual payment against the $100-paid project does not
decrease any `amount_paid`. -/
theorem C9_witness :
    paidLE dbC9.projects (applyCoreOp failingOracle dbC9
      (CoreOp.recordManualPayment 5 (some 50) "venmo" none 99)).projects :=
  C9_amount_paid_monotone failingOracle dbC9
    (CoreOp.recordManualPayment 5 (some 50) "venmo" none 99)
    (fun q hq => by
      cases hq
      norm_num)

/-! ## Claim C2 -/

/-- The store for the C2 scenarios: `amy` and her linked, active
subscription project `sub_1`, in a conserved state (nothing paid, no
payments). -/
def dbC2 : DB := ⟨[amy], [subProjectLinked], [], [], []⟩

/-- An invoice payload for `sub_1` over $50 (5000 minor units). -/
def invC2 : Invoice := ⟨some "sub_1", 5000, 5000⟩

/-- C2 counterexample: `handle_subscription_payment_succeeded` inserts a
succeeded $50 payment for the project but never calls
`update_project_paid_amount`, so after one committed invoice-paid event
the project's `amount_paid` (still 0) no longer equals the succeeded-sum
(50).  (`handle_subscription_created` records its opening payment the same
way.)  Conservation does not survive arbitrary event sequences. -/
theorem C2_counterexample :
    conservative dbC2
    ∧ ¬ conservative (applyLedgerEvent failingOracle dbC2
        (LedgerEvent.invoicePaid invC2)) := by
  have hdbp : applyLedgerEvent failingOracle dbC2
      (LedgerEvent.invoicePaid invC2) =
      { dbC2 with payments := dbC2.payments ++
          [invoicePaymentRow 1 3 "sub_1" (invC2.amount_paid / 100)
            "succeeded"] } := rfl
  constructor
  · intro p hp
    have hps : p = subProjectLinked := by
      have : p ∈ [subProjectLinked] := hp
      simpa using this
    subst hps
    rfl
  · intro hcon
    have hm : subProjectLinked ∈ (applyLedgerEvent failingOracle dbC2
        (LedgerEvent.invoicePaid invC2)).projects := by
      rw [hdbp]
      exact List.mem_singleton_self _
    have h0 := hcon subProjectLinked hm
    rw [hdbp] at h0
    norm_num [succeededSum, subProjectLinked, invoicePaymentRow, invC2,
      dbC2] at h0

/-- C2 (amended): conservation survives any sequence of committed
checkout-completed, invoice-failed and manual-payment-recorded events —
their handlers either insert a succeeded payment and bump the same
project's `amount_paid` by the same amount, insert only a failed payment,
or leave both tables alone.  The subscription-created and invoice-paid
handlers are excluded: each inserts a succeeded payment without ever
touching `amount_paid`, permanently breaking the equality (see the
counterexample). -/
theorem C2_conservation_for_safe_events (oracle : StripeOracle) (db : DB)
    (es : List LedgerEvent) (hsafe : ∀ e ∈ es, conservationSafe e)
    (h : conservative db) :
    conservative (applyLedgerEvents oracle db es) := by
  induction es generalizing db with
  | nil => exact h
  | cons e es ih =>
    have h1 : conservative (applyLedgerEvent oracle db e) := by
      cases e with
      | checkoutCompleted s =>
          exact conservative_handle_successful_payment db s h
      | invoiceFailed inv =>
          exact conservative_handle_subscription_payment_failed db inv h
      | manualPaymentRecorded pid a m nd ts =>
          exact conservative_record_manual_payment db pid a m nd ts h
      | subscriptionCreated s =>
          exact (hsafe _ (List.mem_cons_self _ _)).elim
      | invoicePaid inv =>
          exact (hsafe _ (List.mem_cons_self _ _)).elim
    exact ih _ (fun x hx => hsafe x (List.mem_cons_of_mem _ hx)) h1

/-- C2 witness: the amended conservation at a concrete input — a failed
invoice followed by an admin-recorded $50 manual payment on the conserved
store leaves it conserved. -/
theorem C2_witness :
    conservative (applyLedgerEvents failingOracle dbC2
      [LedgerEvent.invoiceFailed invC2,
       LedgerEvent.manualPaymentRecorded 3 (some 50) "venmo" none 99]) :=
  C2_conservation_for_safe_events failingOracle dbC2
    [LedgerEvent.invoiceFailed invC2,
     LedgerEvent.manualPaymentRecorded 3 (some 50) "venmo" none 99]
    (by
      intro e he
      simp only [List.mem_cons, List.mem_singleton, List.not_mem_nil,
        or_false] at he
      rcases he with rfl | rfl <;> trivial)
    (by
      intro p hp
      have hps : p = subProjectLinked := by
        have : p ∈ [subProjectLinked] := hp
        simpa using this
      subst hps
      rfl)

/-! ## Claim C3 -/

theorem forall2_self_of {R : Project → Project → Prop}
    (hR : ∀ a, R a a) (l : List Project) : List.Forall₂ R l l := by
  induction l with
  | nil => exact List.Forall₂.nil
  | cons p l ih => exact List.Forall₂.cons (hR p) ih

theorem forall2_map_of {R : Project → Project → Prop}
    (f : Project → Project) (hf : ∀ p, R p (f p)) (l : List Project) :
    List.Forall₂ R l (l.map f) := by
  induction l with
  | nil => exact List.Forall₂.nil
  | cons p l ih => exact List.Forall₂.cons (hf p) ih

theorem applyKwargs_status_cancelled (p : Project) (ks : List ProjKwarg)
    (hp : p.status = "cancelled")
    (hk : ∀ v, ProjKwarg.status v ∈ ks → v = "cancelled") :
    (applyKwargs p ks).status = "cancelled" := by
  induction ks generalizing p with
  | nil => exact hp
  | cons k ks ih =>
    show (applyKwargs (applyKwarg p k) ks).status = "cancelled"
    apply ih
    · cases k with
      | status v =>
          show v = "cancelled"
          exact hk v (List.mem_cons_self _ _)
      | stripe_subscription_id v => exact hp
      | subscription_status v => exact hp
      | next_payment_date v => exact hp
      | payment_method_type v => exact hp
    · intro v hv
      exact hk v (List.mem_cons_of_mem _ hv)

/-- Through `update_project`, a row whose `status` is `cancelled` keeps it
whenever every `status` kwarg passed (if any) writes `cancelled`. -/
theorem forall2_status_update_project (db : DB) (pid : Nat)
    (ks : List ProjKwarg)
    (hk : ∀ v, ProjKwarg.status v ∈ ks → v = "cancelled") :
    List.Forall₂ (fun p q => p.status = "cancelled" → q.status = "cancelled")
      db.projects (update_project db pid ks).projects := by
  unfold update_project
  split
  · exact forall2_self_of (fun a h => h) _
  · apply forall2_map_of
    intro p hp
    by_cases hid : p.id = pid
    · simp only [hid, if_pos]
      exact applyKwargs_status_cancelled p _ hp
        (fun v hv => hk v (List.mem_filter.mp hv).1)
    · simp only [hid, if_neg, ite_false]
      exact hp

/-- C3 (amended): the processor-event handlers CAN set
`subscription_status` from `cancelled` back to `active` (see the
counterexample — there is no guard), but the Project-status half of the
claim holds: neither `handle_subscription_updated` nor
`handle_subscription_payment_succeeded` ever moves `Project.status` off
`cancelled`, so a project administratively cancelled at the
Project-status level is never resurrected by them. -/
theorem C3_project_status_never_resurrected :
    (∀ (db : DB) (s : SubEvent),
      List.Forall₂ (fun p q => p.status = "cancelled" → q.status = "cancelled")
        db.projects (handle_subscription_updated db s).projects)
    ∧ (∀ (oracle : StripeOracle) (db : DB) (inv : Invoice),
      List.Forall₂ (fun p q => p.status = "cancelled" → q.status = "cancelled")
        db.projects
        (handle_subscription_payment_succeeded oracle db inv).projects) := by
  constructor
  · intro db s
    unfold handle_subscription_updated
    split
    · exact forall2_self_of (fun a h => h) _
    · apply forall2_status_update_project
      intro v hv
      repeat' split at hv
      all_goals simp at hv
      all_goals exact hv
  · intro oracle db inv
    unfold handle_subscription_payment_succeeded
    split
    · exact forall2_self_of (fun a h => h) _
    · dsimp only
      split
      · exact forall2_self_of (fun a h => h) _
      · split
        · exact forall2_self_of (fun a h => h) _
        · rename_i db1 heq
          have hp1 : db1.projects = db.projects := projects_create_payment heq
          split
          · rw [← hp1]
            exact forall2_self_of (fun a h => h) _
          · split
            · rw [← hp1]
              exact forall2_self_of (fun a h => h) _
            · rw [← hp1]
              apply forall2_status_update_project
              intro v hv
              simp at hv

/-- The store for the C3 counterexample: `amy` and her project whose
subscription was cancelled (Stripe link `sub_2` still recorded). -/
def dbC3 : DB := ⟨[amy], [cancelledSubProject], [], [], []⟩

/-- A subscription-updated payload reporting `sub_2` active again. -/
def subUpdActive : SubEvent :=
  { id := "sub_2", status := "active", cancel_at_period_end := false,
    customer_email := none, metadata_project_id := none,
    items_current_period_end := some 200, latest_invoice := none,
    unit_amount := none }

/-- C3 counterexample: `handle_subscription_updated` has no guard on the
local state — on a project whose `subscription_status` is `cancelled`
(Stripe link still recorded), a subscription-updated event reporting
`active` sets `subscription_status` straight back to `active`, refuting
the claim that `cancelled` is never followed by `active` from a processor
event alone. -/
theorem C3_counterexample :
    (get_project_by_id dbC3 4).map (fun p => p.subscription_status) =
      some "cancelled"
    ∧ (get_project_by_id (handle_subscription_updated dbC3 subUpdActive)
        4).map (fun p => p.subscription_status) = some "active" := by
  constructor <;> decide

/-! ## Claim C4 -/

/-- C3 witness: the amended preservation at a concrete input. -/
theorem C3_witness :
    List.Forall₂ (fun p q => p.status = "cancelled" → q.status = "cancelled")
      dbC3.projects (handle_subscription_updated dbC3 subUpdActive).projects :=
  C3_project_status_never_resurrected.1 dbC3 subUpdActive

theorem customers_handle_subscription_created_link (db : DB) (s : SubEvent)
    (pid : Nat) :
    (handle_subscription_created_link db s pid).customers = db.customers := by
  unfold handle_subscription_created_link
  dsimp only
  repeat' split
  all_goals first
    | rw [customers_update_project]
    | (rename_i db2 heq
       rw [customers_create_payment heq, customers_update_project])

theorem projects_handle_subscription_created_link (db : DB) (s : SubEvent)
    (pid : Nat) :
    (handle_subscription_created_link db s pid).projects =
      (update_project db pid
        [ProjKwarg.stripe_subscription_id (some s.id),
         ProjKwarg.subscription_status "active",
         ProjKwarg.next_payment_date s.items_current_period_end]).projects := by
  unfold handle_subscription_created_link
  dsimp only
  repeat' split
  all_goals first
    | rfl
    | (rename_i db2 heq
       rw [projects_create_payment heq])

theorem update_project_projects_of_ne_nil (db : DB) (pid : Nat)
    (ks : List ProjKwarg) (h : (ks.filter kwargAllowed).isEmpty = false) :
    (update_project db pid ks).projects =
      updateRows db.projects pid
        (fun q => applyKwargs q (ks.filter kwargAllowed)) := by
  unfold update_project
  rw [if_neg (by rw [h]; exact fun hc => Bool.noConfusion hc)]

/-- After the linking update, the customer has no unlinked subscription
project left (assuming the matched project was the only candidate). -/
theorem candidates_after_link (db : DB) (s : SubEvent) (c : Customer)
    (p : Project) (hcand : unlinkedSubscriptionCandidates db c.id = [p]) :
    unlinkedSubscriptionCandidates
      (handle_subscription_created_link db s p.id) c.id = [] := by
  unfold unlinkedSubscriptionCandidates
  rw [projects_handle_subscription_created_link,
    update_project_projects_of_ne_nil db p.id
      [ProjKwarg.stripe_subscription_id (some s.id),
       ProjKwarg.subscription_status "active",
       ProjKwarg.next_payment_date s.items_current_period_end] rfl]
  refine List.filter_eq_nil_iff.mpr ?_
  intro q hq
  unfold updateRows at hq
  rcases List.mem_map.mp hq with ⟨r, hr, rfl⟩
  by_cases hid : r.id = p.id
  · rw [if_pos hid]
    intro hc
    simp only [Bool.and_eq_true, beq_iff_eq] at hc
    have hss : (applyKwargs r (List.filter kwargAllowed
        [ProjKwarg.stripe_subscription_id (some s.id),
         ProjKwarg.subscription_status "active",
         ProjKwarg.next_payment_date s.items_current_period_end])).stripe_subscription_id =
        some s.id := rfl
    rw [hss] at hc
    exact Option.noConfusion hc.2
  · rw [if_neg hid]
    intro hc
    have hrp : r ∈ unlinkedSubscriptionCandidates db c.id := by
      unfold unlinkedSubscriptionCandidates
      exact List.mem_filter.mpr ⟨hr, hc⟩
    rw [hcand] at hrp
    have : r = p := by simpa using hrp
    exact hid (by rw [this])

/-- C4 (amended): the replay guard exists only in the e-mail-fallback
path.  When a subscription-created event carries no project metadata, is
attributed by billing e-mail, and the customer's only unlinked
subscription project was linked by the first delivery, replaying the same
event is an exact no-op: the fallback query (`stripe_subscription_id IS
NULL`) finds nothing and the handler drops the event.  (A replay WITH
project metadata re-runs the whole tail and duplicates the opening
Payment — see the counterexample.) -/
theorem C4_fallback_replay_noop (db : DB) (s : SubEvent) (e : String)
    (c : Customer) (p : Project)
    (hmeta : s.metadata_project_id = none)
    (hmail : s.customer_email = some e)
    (hc : get_customer_by_email db e = some c)
    (hcand : unlinkedSubscriptionCandidates db c.id = [p]) :
    handle_subscription_created (handle_subscription_created db s) s =
      handle_subscription_created db s := by
  have hpid1 : subscription_created_project_id db s = some p.id := by
    unfold subscription_created_project_id
    simp only [hmeta, hmail, hc]
    unfold latestUnlinkedSubscriptionProject
    rw [hcand]
    rfl
  have hfirst : handle_subscription_created db s =
      handle_subscription_created_link db s p.id := by
    unfold handle_subscription_created
    rw [hpid1]
  have hc2 : get_customer_by_email
      (handle_subscription_created_link db s p.id) e = some c := by
    rw [get_customer_by_email_congr db _ e
      (customers_handle_subscription_created_link db s p.id)]
    exact hc
  have hpid2 : subscription_created_project_id
      (handle_subscription_created_link db s p.id) s = none := by
    unfold subscription_created_project_id
    simp only [hmeta, hmail, hc2]
    unfold latestUnlinkedSubscriptionProject
    rw [candidates_after_link db s c p hcand]
    rfl
  rw [hfirst]
  show handle_subscription_created (handle_subscription_created_link db s p.id) s = _
  unfold handle_subscription_created
  rw [hpid2]

/-- The store for the C4 scenarios: `amy` and her single unlinked
subscription project. -/
def dbC4 : DB := ⟨[amy], [subProjectUnlinked], [], [], []⟩

/-- A subscription-created payload carrying project metadata and a latest
invoice (unit amount 5000 minor units). -/
def subCreatedMeta : SubEvent :=
  { id := "sub_3", status := "active", cancel_at_period_end := false,
    customer_email := some "amy@example.com", metadata_project_id := some 2,
    items_current_period_end := some 300, latest_invoice := some "in_1",
    unit_amount := some 5000 }

/-- The same payload without project metadata (checkout does not always
propagate metadata to the follow-on event). -/
def subCreatedNoMeta : SubEvent :=
  { id := "sub_3", status := "active", cancel_at_period_end := false,
    customer_email := some "amy@example.com", metadata_project_id := none,
    items_current_period_end := some 300, latest_invoice := some "in_1",
    unit_amount := some 5000 }

/-- C4 counterexample: a metadata-bearing subscription-created event has
NO replay guard — the handler never checks whether the project already
carries the external subscription reference, and the opening payment is
inserted with a NULL intent id, so the UNIQUE constraint cannot stop it
either.  Replaying the same event turns one opening payment into two,
refuting the claimed idempotence. -/
theorem C4_counterexample :
    (handle_subscription_created dbC4 subCreatedMeta).payments.length = 1
    ∧ (handle_subscription_created
        (handle_subscription_created dbC4 subCreatedMeta)
        subCreatedMeta).payments.length = 2
    ∧ ((handle_subscription_created
        (handle_subscription_created dbC4 subCreatedMeta)
        subCreatedMeta).payments.filter
        (fun q => q.stripe_subscription_id == some "sub_3")).length = 2 := by
  refine ⟨?_, ?_, ?_⟩ <;> decide

/-- C4 witness: the amended replay guard at a concrete input — the
metadata-less event delivered twice against the store with one unlinked
subscription project; the second delivery is an exact no-op. -/
theorem C4_witness :
    handle_subscription_created
      (handle_subscription_created dbC4 subCreatedNoMeta) subCreatedNoMeta =
    handle_subscription_created dbC4 subCreatedNoMeta :=
  C4_fallback_replay_noop dbC4 subCreatedNoMeta "amy@example.com" amy
    subProjectUnlinked rfl rfl (by decide) (by decide)

/-! ## Claim C7 -/

/-- The validated path of `record_manual_payment` when the synthesized
reference already exists: the INSERT violates the UNIQUE constraint and
raises before any mutation, leaving the store unchanged. -/
theorem record_manual_payment_conflict (db : DB) (pid : Nat) (a : Rat)
    (m : String) (nd : Option Nat) (ts : Nat) (p : Project)
    (hp : get_project_by_id db pid = some p)
    (hm : m = "venmo" ∨ m = "cashapp" ∨ m = "zelle")
    (hconf : intentConflict db (manualPaymentRow p.customer_id pid a m ts) = true) :
    record_manual_payment db pid (some a) m nd ts = db := by
  unfold record_manual_payment
  simp only [hp]
  rw [if_pos hm]
  have hc : create_payment db (manualPaymentRow p.customer_id pid a m ts) =
      none := by
    unfold create_payment
    rw [if_pos hconf]
  rw [hc]

/-- The store for the C7 scenario: `amy` and her linked subscription
project, no payments yet. -/
def dbC7 : DB := ⟨[amy], [subProjectLinked], [], [], []⟩

/-- The store right after the first manual recording's INSERT. -/
def dbC7mid : DB :=
  { dbC7 with payments := dbC7.payments ++
      [manualPaymentRow 1 3 50 "venmo" 99] }

/-- C7 (code evaluated at the failing input): the synthesized external
reference is `manual_{project_id}_{int(now.timestamp())}` — it depends
only on the project and the wall-clock second.  Recording $50 (venmo) and
then $60 (cashapp) against project 3 within the same second synthesizes
the same reference `manual_3_99` twice: the second INSERT violates the
`stripe_payment_intent_id` UNIQUE constraint and raises, so the second
recording leaves the store unchanged — one Payment row instead of two. -/
theorem C7_same_second_reference_collision :
    (record_manual_payment dbC7 3 (some 50) "venmo" none 99).payments.map
      (fun q => q.stripe_payment_intent_id) = [some "manual_3_99"]
    ∧ record_manual_payment
        (record_manual_payment dbC7 3 (some 50) "venmo" none 99)
        3 (some 60) "cashapp" none 99 =
      record_manual_payment dbC7 3 (some 50) "venmo" none 99 := by
  have hdb1 : record_manual_payment dbC7 3 (some 50) "venmo" none 99 =
      update_project_paid_amount dbC7mid 3 50 := by
    unfold record_manual_payment
    simp only [show get_project_by_id dbC7 3 = some subProjectLinked from
      by decide]
    rw [if_pos (Or.inl trivial)]
    rw [create_payment_of_no_conflict _ _ (by decide)]
    rfl
  constructor
  · rw [hdb1]
    decide
  · have hp2 : get_project_by_id
        (record_manual_payment dbC7 3 (some 50) "venmo" none 99) 3 =
        some (bumpPaid 50 subProjectLinked) := by
      rw [hdb1, get_update_paid,
        get_project_by_id_congr dbC7 dbC7mid 3 rfl,
        show get_project_by_id dbC7 3 = some subProjectLinked from by decide]
      simp only [Option.map_some']
      rw [if_pos (by decide : subProjectLinked.id = 3)]
    have hconf : intentConflict
        (record_manual_payment dbC7 3 (some 50) "venmo" none 99)
        (manualPaymentRow (bumpPaid 50 subProjectLinked).customer_id 3 60
          "cashapp" 99) = true := by
      apply intentConflict_true_of_mem _ _ "manual_3_99" rfl
        (manualPaymentRow 1 3 50 "venmo" 99) ?_ rfl
      rw [hdb1]
      show manualPaymentRow 1 3 50 "venmo" 99 ∈ dbC7mid.payments
      exact List.mem_append_right _ (List.mem_singleton_self _)
    exact record_manual_payment_conflict _ 3 60 "cashapp" none 99
      (bumpPaid 50 subProjectLinked) hp2 (Or.inr (Or.inl rfl)) hconf

/-! ## Claim C8: backfill lemmas -/

theorem find?_id_of_nodup (l : List Project) (p : Project)
    (h : (l.map (fun q => q.id)).Nodup) (hmem : p ∈ l) :
    l.find? (fun q => q.id == p.id) = some p := by
  induction l with
  | nil => cases hmem
  | cons a l ih =>
    rw [List.map_cons, List.nodup_cons] at h
    rcases List.mem_cons.mp hmem with rfl | hmem2
    · rw [List.find?_cons_of_pos _ (by simp)]
    · have hne : a.id ≠ p.id := by
        intro hc
        exact h.1 (hc ▸ List.mem_map_of_mem _ hmem2)
      rw [List.find?_cons_of_neg _ (by simp [hne])]
      exact ih h.2 hmem2

theorem get_project_by_id_of_nodup (db : DB) (p : Project)
    (h : (db.projects.map (fun q => q.id)).Nodup) (hmem : p ∈ db.projects) :
    get_project_by_id db p.id = some p :=
  find?_id_of_nodup db.projects p h hmem

theorem get_update_project_ne (db : DB) (pid : Nat) (ks : List ProjKwarg)
    (t : Nat) (h : pid ≠ t) :
    get_project_by_id (update_project db pid ks) t =
      get_project_by_id db t := by
  rw [get_update_project]
  cases hf : get_project_by_id db t with
  | none => rfl
  | some p =>
    have hpt : p.id = t := (get_project_by_id_mem db t p hf).2
    simp only [Option.map_some']
    rw [if_neg (by rw [hpt]; exact fun hc => h hc.symm)]

theorem ids_updateRows (rows : List Project) (pid : Nat)
    (f : Project → Project) (hf : ∀ p, (f p).id = p.id) :
    (updateRows rows pid f).map (fun p => p.id) =
      rows.map (fun p => p.id) := by
  induction rows with
  | nil => rfl
  | cons a rows ih =>
    unfold updateRows at *
    simp only [List.map_cons]
    rw [ih]
    congr 1
    by_cases h : a.id = pid <;> simp [h, hf]

theorem ids_update_project (db : DB) (pid : Nat) (ks : List ProjKwarg) :
    (update_project db pid ks).projects.map (fun p => p.id) =
      db.projects.map (fun p => p.id) := by
  unfold update_project
  split
  · rfl
  · exact ids_updateRows _ _ _ (fun p => applyKwargs_id p _)

theorem backfillStep_ids (oracle : StripeOracle) (db : DB)
    (row : ActiveSubRow) :
    (backfillStep oracle db row).projects.map (fun p => p.id) =
      db.projects.map (fun p => p.id) := by
  unfold backfillStep
  repeat' split
  all_goals first
    | rfl
    | exact ids_update_project _ _ _

theorem backfill_fold_ids (oracle : StripeOracle) (rows : List ActiveSubRow)
    (db : DB) :
    ((rows.foldl (backfillStep oracle) db).projects).map (fun p => p.id) =
      db.projects.map (fun p => p.id) := by
  induction rows generalizing db with
  | nil => rfl
  | cons r rows ih =>
    rw [List.foldl_cons, ih, backfillStep_ids]

theorem backfillStep_get_ne (oracle : StripeOracle) (db : DB)
    (row : ActiveSubRow) (t : Nat) (hne : row.id ≠ t) :
    get_project_by_id (backfillStep oracle db row) t =
      get_project_by_id db t := by
  unfold backfillStep
  repeat' split
  all_goals first
    | rfl
    | exact get_update_project_ne _ _ _ _ hne

theorem backfill_fold_get_preserved (oracle : StripeOracle)
    (rows : List ActiveSubRow) (db : DB) (t : Nat)
    (h : ∀ r ∈ rows, r.id ≠ t ∨ r.next_payment_date ≠ none) :
    get_project_by_id (rows.foldl (backfillStep oracle) db) t =
      get_project_by_id db t := by
  induction rows generalizing db with
  | nil => rfl
  | cons r rows ih =>
    rw [List.foldl_cons,
      ih _ (fun x hx => h x (List.mem_cons_of_mem _ hx))]
    rcases h r (List.mem_cons_self _ _) with hne | hnp
    · exact backfillStep_get_ne oracle db r t hne
    · have hno : backfillStep oracle db r = db := by
        unfold backfillStep
        rw [if_neg (fun hcond => hnp hcond.1)]
      rw [hno]

theorem backfillStep_hit (oracle : StripeOracle) (db : DB)
    (row : ActiveSubRow) (s : String) (info : StripeSubInfo) (t : Nat)
    (hnp : row.next_payment_date = none)
    (hsr : row.stripe_subscription_id = some s)
    (horc : oracle s = some info)
    (hpe : info.items_current_period_end = some t) :
    backfillStep oracle db row =
      update_project db row.id [ProjKwarg.next_payment_date (some t)] := by
  unfold backfillStep
  rw [if_pos ⟨hnp, by rw [hsr]; exact fun hc => Option.noConfusion hc⟩]
  simp only [hsr, horc, hpe]

theorem mem_active_snapshot (db : DB) (p : Project) (s : String)
    (h : p ∈ db.projects) (hsub : p.is_subscription = true)
    (hst : p.subscription_status = "active")
    (hsr : p.stripe_subscription_id = some s) :
    (⟨p.id, p.stripe_subscription_id, p.next_payment_date⟩ : ActiveSubRow) ∈
      get_active_subscription_projects db := by
  unfold get_active_subscription_projects
  refine List.mem_map.mpr ⟨p, ?_, rfl⟩
  refine List.mem_filter.mpr ⟨h, ?_⟩
  rw [hsub, hst, hsr]
  rfl

theorem snapshot_ids_nodup (db : DB)
    (h : (db.projects.map (fun q => q.id)).Nodup) :
    ((get_active_subscription_projects db).map (fun r => r.id)).Nodup := by
  unfold get_active_subscription_projects
  rw [List.map_map]
  exact List.Nodup.sublist ((List.filter_sublist _).map _) h

theorem nodup_split_ne {l1 l2 : List ActiveSubRow} {row : ActiveSubRow}
    (h : ((l1 ++ row :: l2).map (fun r => r.id)).Nodup) :
    (∀ r ∈ l1, r.id ≠ row.id) ∧ (∀ r ∈ l2, r.id ≠ row.id) := by
  rw [List.map_append, List.map_cons] at h
  constructor
  · intro r hr hc
    have hdis := (List.nodup_append.mp h).2.2
    exact hdis (List.mem_map_of_mem _ hr)
      (by rw [hc]; exact List.mem_cons_self _ _)
  · intro r hr hc
    have h2 := (List.nodup_append.mp h).2.1
    exact (List.nodup_cons.mp h2).1
      (by rw [← hc]; exact List.mem_map_of_mem _ hr)

/-! ## Claim C8: main theorem -/

/-- C8: for an active-subscription project with a recorded external
subscription reference and no next payment date, one backfill run
populates `next_payment_date` from the processor's current billing-period
end, and a second run leaves that project's row untouched (the
already-populated date makes the sweep skip it).  The oracle is
arbitrary: its value on every other subscription reference is
unconstrained, so a downstream failure (a `none` answer) for any other
project is skipped without disturbing this project's repair — the sweep
never aborts. -/
theorem C8_backfill_populates_once (oracle : StripeOracle) (db : DB)
    (p : Project) (s : String) (info : StripeSubInfo) (t : Nat)
    (hnodup : (db.projects.map (fun q => q.id)).Nodup)
    (hmem : p ∈ db.projects)
    (hsub : p.is_subscription = true)
    (hst : p.subscription_status = "active")
    (hsr : p.stripe_subscription_id = some s)
    (hnp : p.next_payment_date = none)
    (horc : oracle s = some info)
    (hpe : info.items_current_period_end = some t) :
    get_project_by_id (backfill_subscription_payment_dates oracle db) p.id =
      some { p with next_payment_date := some t }
    ∧ get_project_by_id (backfill_subscription_payment_dates oracle
        (backfill_subscription_payment_dates oracle db)) p.id =
      some { p with next_payment_date := some t } := by
  have hget : get_project_by_id db p.id = some p :=
    get_project_by_id_of_nodup db p hnodup hmem
  have hrowmem : (⟨p.id, some s, none⟩ : ActiveSubRow) ∈
      get_active_subscription_projects db := by
    have hmas := mem_active_snapshot db p s hmem hsub hst hsr
    rw [hsr, hnp] at hmas
    exact hmas
  obtain ⟨l1, l2, hsplit⟩ := List.append_of_mem hrowmem
  have hnds := snapshot_ids_nodup db hnodup
  rw [hsplit] at hnds
  obtain ⟨hl1, hl2⟩ := nodup_split_ne hnds
  have h1 : get_project_by_id (backfill_subscription_payment_dates oracle db)
      p.id = some { p with next_payment_date := some t } := by
    unfold backfill_subscription_payment_dates
    rw [hsplit, List.foldl_append, List.foldl_cons]
    rw [backfill_fold_get_preserved oracle l2 _ p.id
      (fun r hr => Or.inl (hl2 r hr))]
    rw [backfillStep_hit oracle _ ⟨p.id, some s, none⟩ s info t rfl rfl
      horc hpe]
    rw [get_update_project]
    rw [backfill_fold_get_preserved oracle l1 db p.id
      (fun r hr => Or.inl (hl1 r hr))]
    rw [hget]
    simp only [Option.map_some']
    rfl
  refine ⟨h1, ?_⟩
  have hnd1 : ((backfill_subscription_payment_dates oracle db).projects.map
      (fun x => x.id)).Nodup := by
    have hids1 : ((backfill_subscription_payment_dates oracle db).projects).map
        (fun q => q.id) = db.projects.map (fun q => q.id) :=
      backfill_fold_ids oracle (get_active_subscription_projects db) db
    rw [hids1]
    exact hnodup
  have hcond : ∀ r ∈ get_active_subscription_projects
      (backfill_subscription_payment_dates oracle db),
      r.id ≠ p.id ∨ r.next_payment_date ≠ none := by
    intro r hr
    by_cases hid : r.id = p.id
    · right
      unfold get_active_subscription_projects at hr
      rcases List.mem_map.mp hr with ⟨q, hqmem, rfl⟩
      have hq2 : q ∈ (backfill_subscription_payment_dates oracle db).projects :=
        (List.mem_filter.mp hqmem).1
      have hgq : get_project_by_id
          (backfill_subscription_payment_dates oracle db) q.id = some q :=
        get_project_by_id_of_nodup _ q hnd1 hq2
      have hqid : q.id = p.id := hid
      rw [hqid, h1] at hgq
      rw [show q = { p with next_payment_date := some t } from
        (Option.some.inj hgq).symm]
      simp
    · exact Or.inl hid
  rw [show get_project_by_id (backfill_subscription_payment_dates oracle
      (backfill_subscription_payment_dates oracle db)) p.id =
      get_project_by_id (backfill_subscription_payment_dates oracle db) p.id
    from backfill_fold_get_preserved oracle _ _ p.id hcond]
  exact h1

/-- The store for the C8 witness: `amy` and her linked, active
subscription project with no next payment date. -/
def dbC8 : DB := ⟨[amy], [subProjectLinked], [], [], []⟩

/-- An oracle knowing only `sub_1` (billing period ends at 777); every
other lookup fails, modelling per-item Stripe errors. -/
def oracleC8 : StripeOracle :=
  fun sid => if sid = "sub_1" then some ⟨some 777⟩ else none

/-- C8 witness: one backfill run populates project 3's next payment date
with 777; a second run leaves it untouched. -/
theorem C8_witness :
    get_project_by_id (backfill_subscription_payment_dates oracleC8 dbC8)
      subProjectLinked.id =
      some { subProjectLinked with next_payment_date := some 777 }
    ∧ get_project_by_id (backfill_subscription_payment_dates oracleC8
        (backfill_subscription_payment_dates oracleC8 dbC8))
      subProjectLinked.id =
      some { subProjectLinked with next_payment_date := some 777 } :=
  C8_backfill_populates_once oracleC8 dbC8 subProjectLinked "sub_1"
    ⟨some 777⟩ 777 (by decide) (by decide) rfl rfl rfl rfl (by decide) rfl

end ShaunaSaunders
